import Mathlib

/-!
Verification of the Chronos astronomical library (C source) against its
natural-language specification.

Shallow-embedding conventions:

* C `double` values are modelled as elements of a linear ordered field with
  a floor function.  The calendar module is written generically in such a
  field `α` so that it can be instantiated both at `ℚ` (exact, decidable,
  used for the calendar claims; every `double` a C program can hold is a
  rational) and at `ℝ` (used by the astronomical layer, whose
  trigonometric functions live in `ℝ`, and which feeds real values back
  into the calendar conversions).  Floating-point rounding is outside the
  model; `M_PI` is modelled as `Real.pi`.
* A C cast `(int)x` truncates toward zero: `itrunc`.  C `fmod` is
  `c_fmod`.  C integer division of `int` operands truncates toward zero:
  `Int.tdiv`.  The C `%` on `int`s is used by this source only in tests
  `x % n == 0` / `x % n != 0`, whose truth agrees with the Euclidean `%`,
  used here.
* The external collaborators (the VSOP87D planetary theory, the ELP2000-82B
  lunar theory and its Delaunay arguments), together with the observable
  outcomes of the undefined behaviour present in the source (the read of
  the uninitialised variable `k` in `aberration`, of the uninitialised
  variable `m` in `planet_apparent_magnitude`, and the read past the end of
  `deltat_telescope_era` for year 2020), are bundled into an explicit
  environment `Env`.  Every embedded function that can reach one of them
  takes the relevant part of the environment as an argument.
* The unbounded C `while`/`do while` loops (light time, equinox/solstice)
  are modelled with an explicit fuel parameter and an `Option` result:
  `none` means the fuel was exhausted before the loop guard failed.
-/

namespace Chronos

section Calendar

variable {A : Type} [LinearOrderedField A] [FloorRing A]

/-- Truncation toward zero, i.e. the C cast `(int)x` applied to a `double`. -/
def itrunc (q : A) : ℤ :=
  if 0 ≤ q then ⌊q⌋ else -⌊-q⌋

/-- C `fmod x y`: `x - y * trunc (x / y)`. -/
def c_fmod (x y : A) : A :=
  x - y * (itrunc (x / y) : A)

/-- `calendar.h`: struct `date`.  The day number is a decimal whose
fractional part is the fraction of the 24-hour day; month and year are
integers (the month enum has values 1..12). -/
structure date (A : Type) where
  day : A
  month : ℤ
  year : ℤ
  deriving DecidableEq

/-- `calendar.h`: enum value `JANUARY`. -/
def JANUARY : ℤ := 1

/-- `calendar.h`: enum value `FEBRUARY`. -/
def FEBRUARY : ℤ := 2

/-- `calendar.h`: enum value `OCTOBER`. -/
def OCTOBER : ℤ := 10

/-- `calendar.h`: enum value `DECEMBER`. -/
def DECEMBER : ℤ := 12

/-- `calendar.h`: enum value `MONDAY`. -/
def MONDAY : ℤ := 1

/-- `calendar.h`: `J2000` (Julian date of the beginning of epoch J2000). -/
def J2000 : A := 2451545.0

/-- `calendar.h`: `DAYS_IN_JULIAN_CENTURY`. -/
def DAYS_IN_JULIAN_CENTURY : A := 36525.0

/-- `calendar.h`: `DAYS_IN_JULIAN_MILLENIUM`. -/
def DAYS_IN_JULIAN_MILLENIUM : A := 365250.0

/-- `calendar.c`: `JULIAN_START_DATE` = 1.5 January 4713 B.C. -/
def JULIAN_START_DATE : date A := ⟨1.5, JANUARY, -4712⟩

/-- `calendar.c`: `JULIAN_END_DATE` = 4.0 October 1582. -/
def JULIAN_END_DATE : date A := ⟨4.0, OCTOBER, 1582⟩

/-- `calendar.c`: `GREGORIAN_START_DATE` = 15.0 October 1582. -/
def GREGORIAN_START_DATE : date A := ⟨15.0, OCTOBER, 1582⟩

/-- `calendar.c`: `compare_dates`.  Returns 1 if `d1` precedes `d2`,
-1 if `d2` precedes `d1`, and 0 when they are equal. -/
def compare_dates (d1 d2 : date A) : ℤ :=
  if d1.year = d2.year then
    if d1.month = d2.month then
      if d1.day = d2.day then 0
      else if d1.day < d2.day then 1 else -1
    else if d1.month < d2.month then 1 else -1
  else if d1.year < d2.year then 1 else -1

/-- `calendar.c`: `linear_interpolate`. -/
def linear_interpolate (x x0 x1 y0 y1 : A) : A :=
  y0 + (x - x0) * (y1 - y0) / (x1 - x0)

/-- `calendar.c`: the `days_in_month` table (row 0: common year,
row 1: leap year; column 0 pads for the `UNKNOWN_MONTH` value). -/
def days_in_month : List (List ℤ) :=
  [[0, 31, 28, 31, 30, 31, 30, 31, 31, 30, 31, 30, 31],
   [0, 31, 29, 31, 30, 31, 30, 31, 31, 30, 31, 30, 31]]

/-- `calendar.c`: `is_leap_year`.  Gregorian rule from the Gregorian start
year on, Julian rule before it.  Returns 1 for a leap year, otherwise 0. -/
def is_leap_year (y : ℤ) : ℤ :=
  if (GREGORIAN_START_DATE : date ℚ).year ≤ y then
    if (y % 4 = 0 ∧ y % 100 ≠ 0) ∨ y % 400 = 0 then 1 else 0
  else
    if y % 4 = 0 then 1 else 0

/-- The C array access `days_in_month[is_leap_year(y)][m]`. -/
def month_length (y m : ℤ) : ℤ :=
  (days_in_month.getD (is_leap_year y).toNat []).getD m.toNat 0

/-- `calendar.c`: `is_date_valid`.  The second C condition reads
`!(d.day >= 0 || d.day < days_in_month[is_leap_year(d.year)][d.month]) + 1`:
by C operator precedence the `+ 1` applies to the result of `!`, so the
value tested by the `if` is `(!A) + 1`; it is modelled literally. -/
def is_date_valid (d : date A) : ℤ :=
  if d.month < JANUARY ∨ DECEMBER < d.month then 0
  else if ((if 0 ≤ d.day ∨ d.day < (month_length d.year d.month : A) then (0 : ℤ) else 1) + 1) ≠ 0 then 0
  else if 0 < compare_dates d JULIAN_START_DATE then 0
  else if 0 < compare_dates JULIAN_END_DATE d ∧ compare_dates GREGORIAN_START_DATE d < 0 then 0
  else 1

/-- `calendar.c`: `julian_date`.  January and February are treated as months
13 and 14 of the previous year; the Gregorian correction `b` is applied when
the (already shifted) date is on or after `GREGORIAN_START_DATE`. -/
def julian_date (d : date A) : A :=
  let y : ℤ := if d.month = JANUARY ∨ d.month = FEBRUARY then d.year - 1 else d.year
  let m : ℤ := if d.month = JANUARY ∨ d.month = FEBRUARY then d.month + 12 else d.month
  let b : ℤ :=
    if 0 ≤ compare_dates GREGORIAN_START_DATE ⟨d.day, m, y⟩ then
      2 - Int.tdiv y 100 + Int.tdiv (Int.tdiv y 100) 4
    else 0
  ((itrunc (365.25 * ((y : A) + 4716)) + itrunc (30.6001 * ((m : A) + 1)) + b : ℤ) : A)
    + d.day - 1524.5

/-- `calendar.c`: `day_of_week`.  Julian date 0 is a Monday; the library
numbers Monday as 1. -/
def day_of_week (d : date A) : ℤ :=
  itrunc (c_fmod (julian_date d + 0.5) 7.0) + 1

/-- `calendar.c`: `day_of_year`. -/
def day_of_year (d : date A) : ℤ :=
  let l : ℤ := if is_leap_year d.year ≠ 0 then 1 else 2
  itrunc (275.0 * (d.month : A) / 9.0) - l * itrunc (((d.month : A) + 9.0) / 12.0)
    + itrunc d.day - 30

/-- `calendar.c`: `calendar_date` (inverse of `julian_date`), branching at
Julian day number 2299161. -/
def calendar_date (jdn : A) : date A :=
  let z : A := (itrunc (jdn + 0.5) : A)
  let f : A := jdn + 0.5 - z
  let a : A :=
    if z < 2299161.0 then z
    else
      let ap : A := (itrunc ((z - 1867216.25) / 36524.25) : A)
      z + 1.0 + ap - (itrunc (ap / 4.0) : A)
  let b : A := a + 1524.0
  let c : A := (itrunc ((b - 122.1) / 365.25) : A)
  let dd : A := (itrunc (365.25 * c) : A)
  let e : A := (itrunc ((b - dd) / 30.6001) : A)
  let mo : ℤ := if e < 14.0 then itrunc e - 1 else itrunc e - 13
  ⟨b - dd - (itrunc (30.6001 * e) : A) + f, mo,
    if 2 < mo then itrunc c - 4716 else itrunc c - 4715⟩

/-! Pure-integer form of the `calendar_date` computation, used to separate
the floor-arithmetic bookkeeping from the combinatorial core of the
round-trip proof. -/

/-- Integer form of the auxiliary `a` of `calendar_date`. -/
def cd_a (z : ℤ) : ℤ :=
  if z < 2299161 then z
  else z + 1 + (4 * z - 7468865) / 146097 - (4 * z - 7468865) / 146097 / 4

/-- Integer form of the auxiliary `b` of `calendar_date`. -/
def cd_b (z : ℤ) : ℤ := cd_a z + 1524

/-- Integer form of the auxiliary `c` of `calendar_date`. -/
def cd_c (z : ℤ) : ℤ := (20 * cd_b z - 2442) / 7305

/-- Integer form of the auxiliary `d` of `calendar_date`. -/
def cd_d (z : ℤ) : ℤ := 1461 * cd_c z / 4

/-- Integer form of the auxiliary `e` of `calendar_date`. -/
def cd_e (z : ℤ) : ℤ := 10000 * (cd_b z - cd_d z) / 306001

/-- Integer part of the day produced by `calendar_date`. -/
def cd_day (z : ℤ) : ℤ := cd_b z - cd_d z - 306001 * cd_e z / 10000

/-- Month produced by `calendar_date`. -/
def cd_mo (z : ℤ) : ℤ := if cd_e z < 14 then cd_e z - 1 else cd_e z - 13

/-- Year produced by `calendar_date`. -/
def cd_yr (z : ℤ) : ℤ := if 2 < cd_mo z then cd_c z - 4716 else cd_c z - 4715

/-- `calendar.c`: `DELTA_T_TABLE_START_YEAR`. -/
def DELTA_T_TABLE_START_YEAR : ℤ := -1000

/-- `calendar.c`: `DELTA_T_TABLE_END_YEAR`. -/
def DELTA_T_TABLE_END_YEAR : ℤ := 2020

/-- `calendar.c`: `PRE_TELESCOPE_ERA_START_YEAR`. -/
def PRE_TELESCOPE_ERA_START_YEAR : ℤ := -1000

/-- `calendar.c`: `PRE_TELESCOPE_ERA_YEAR_INTERVAL`. -/
def PRE_TELESCOPE_ERA_YEAR_INTERVAL : ℤ := 100

/-- `calendar.c`: `TELESCOPE_ERA_START_YEAR`. -/
def TELESCOPE_ERA_START_YEAR : ℤ := 1700

/-- `calendar.c`: `TELESCOPE_ERA_YEAR_INTERVAL`. -/
def TELESCOPE_ERA_YEAR_INTERVAL : ℤ := 10

/-- `calendar.c`: the `deltat_pre_telescope_era` table
(year, ΔT in seconds, uncertainty in seconds). -/
def deltat_pre_telescope_era : List (ℤ × ℤ × ℤ) :=
  [(-1000, 25400, 640), (-900, 23700, 590), (-800, 22000, 550),
   (-700, 20400, 500), (-600, 18800, 460), (-500, 17190, 430),
   (-400, 15530, 390), (-300, 14080, 360), (-200, 12790, 330),
   (-100, 11640, 290), (0, 10580, 260), (100, 9600, 240),
   (200, 8640, 210), (300, 7680, 180), (400, 6700, 160),
   (500, 5710, 140), (600, 4740, 120), (700, 3810, 100),
   (800, 2960, 80), (900, 2200, 70), (1000, 1570, 55),
   (1100, 1090, 40), (1200, 740, 30), (1300, 490, 20),
   (1400, 320, 20), (1500, 200, 20), (1600, 120, 20), (1700, 9, 5)]

/-- `calendar.c`: the `deltat_telescope_era` table
(year, ΔT in seconds, uncertainty in seconds). -/
def deltat_telescope_era : List (ℤ × ℤ × ℤ) :=
  [(1700, 9, 5), (1710, 10, 3), (1720, 11, 3), (1730, 11, 3),
   (1740, 12, 2), (1750, 13, 2), (1760, 15, 2), (1770, 16, 2),
   (1780, 17, 1), (1790, 17, 1), (1800, 14, 1), (1810, 13, 1),
   (1820, 12, 1), (1830, 8, 1), (1840, 6, 0), (1850, 7, 0),
   (1860, 8, 0), (1870, 2, 0), (1880, -5, 0), (1890, -6, 0),
   (1900, -3, 0), (1910, 10, 0), (1920, 21, 0), (1930, 24, 0),
   (1940, 24, 0), (1950, 29, 0), (1960, 33, 0), (1970, 40, 0),
   (1980, 51, 0), (1990, 57, 0), (2000, 65, 0), (2010, 66, 0),
   (2020, 71, 4)]

/-- Access to row `i` of a ΔT table.  For the one reachable out-of-bounds
index (row 33 of the telescope-era table, reached for dates in year 2020)
the C code reads whatever memory follows the array; that unknown memory is
modelled by the explicit argument `oob` (as the would-be year and ΔT
cells). -/
def deltat_row (tbl : List (ℤ × ℤ × ℤ)) (oob : ℤ × ℤ) (i : ℤ) : ℤ × ℤ × ℤ :=
  tbl.getD i.toNat (oob.1, oob.2, 0)

/-- `calendar.c`: `dynamical_time_difference` (ΔT, in seconds).  Outside
[-1000, 2020] the quadratic extrapolation formula is used; otherwise the
date is converted to a decimal year and ΔT is interpolated linearly from
the era table selected by `year < 1700`. -/
def dynamical_time_difference (oob : ℤ × ℤ) (d : date A) : A :=
  if d.year < DELTA_T_TABLE_START_YEAR ∨ DELTA_T_TABLE_END_YEAR < d.year then
    -20.0 + 32.0 * ((d.year : A) - 1820.0) * ((d.year : A) - 1820.0) / 10000.0
  else
    let dy : A := (d.year : A) + (day_of_year d : A) / (365.0 + (is_leap_year d.year : A))
    if d.year < TELESCOPE_ERA_START_YEAR then
      let i : ℤ := Int.tdiv (d.year - PRE_TELESCOPE_ERA_START_YEAR) PRE_TELESCOPE_ERA_YEAR_INTERVAL
      let r0 := deltat_row deltat_pre_telescope_era oob i
      let r1 := deltat_row deltat_pre_telescope_era oob (i + 1)
      linear_interpolate dy (r0.1 : A) (r1.1 : A) (r0.2.1 : A) (r1.2.1 : A)
    else
      let i : ℤ := Int.tdiv (d.year - TELESCOPE_ERA_START_YEAR) TELESCOPE_ERA_YEAR_INTERVAL
      let r0 := deltat_row deltat_telescope_era oob i
      let r1 := deltat_row deltat_telescope_era oob (i + 1)
      linear_interpolate dy (r0.1 : A) (r1.1 : A) (r0.2.1 : A) (r1.2.1 : A)

/-- `calendar.c`: `julian_ephemeris_date` (the Julian date corrected by ΔT
converted from seconds to days). -/
def julian_ephemeris_date (oob : ℤ × ℤ) (d : date A) : A :=
  julian_date d + dynamical_time_difference oob d / 86400.0

/-- The calendar-date invariant of the specification's data model: month in
[1, 12], day within the month length for the year's leap status, the
resulting Julian date non-negative, and the date not inside the interval
elided by the Gregorian reform (5-14 October 1582 inclusive).  The source's
`is_date_valid` was intended to decide this predicate. -/
def ValidDate (d : date ℚ) : Prop :=
  JANUARY ≤ d.month ∧ d.month ≤ DECEMBER ∧
  1 ≤ d.day ∧ d.day < (month_length d.year d.month : ℚ) + 1 ∧
  0 ≤ julian_date d ∧
  ¬(d.year = 1582 ∧ d.month = OCTOBER ∧ 5 ≤ d.day ∧ d.day < 15)

instance (d : date ℚ) : Decidable (ValidDate d) := by
  unfold ValidDate; infer_instance

/-- The decimal-year value computed inside `dynamical_time_difference`. -/
def decimal_year (d : date A) : A :=
  (d.year : A) + (day_of_year d : A) / (365.0 + (is_leap_year d.year : A))

end Calendar


section Astro

open Real

/-- `vsop87d.h` (external collaborator): a heliocentric position in
spherical coordinates. -/
structure spherical_point where
  longitude : ℝ
  latitude : ℝ
  distance : ℝ

/-- `coordinates.h`: a point in ecliptic coordinates. -/
structure ecliptic_point where
  longitude : ℝ
  latitude : ℝ

/-- `coordinates.h`: a point in equatorial coordinates. -/
structure equatorial_point where
  right_ascension : ℝ
  declination : ℝ

/-- `vsop87d.h` (external): the planet enumeration, Mercury = 0 .. Neptune = 7. -/
inductive Planet
  | MERCURY | VENUS | EARTH | MARS | JUPITER | SATURN | URANUS | NEPTUNE
  deriving DecidableEq

/-- `elp2000-82b/arguments.h` (external): the four Delaunay arguments
`l`, `l'`, `F`, `D` (in arcseconds). -/
structure DelaunayArgs where
  l : ℝ
  lp : ℝ
  f : ℝ
  d : ℝ

/-- The environment of the embedded program: the external theory providers
(pure deterministic functions of time, per the specification), together
with the values produced by the undefined behaviours present in the source
(reads of uninitialised variables and the out-of-bounds ΔT table read). -/
structure Env where
  hpp : ℝ → Planet → spherical_point
  delaunay : ℝ → DelaunayArgs
  moonPos : ℝ → spherical_point
  oob : ℤ × ℤ
  kUninit : ℝ
  mUninit : ℝ

noncomputable section

/-- `math.h` `atan2` (the usual quadrant-correct arctangent). -/
def atan2 (y x : ℝ) : ℝ :=
  if 0 < x then arctan (y / x)
  else if x < 0 then
    (if 0 ≤ y then arctan (y / x) + π else arctan (y / x) - π)
  else
    (if 0 < y then π / 2 else if y < 0 then -π / 2 else 0)

/-- `math.h` `log10`. -/
def log10 (x : ℝ) : ℝ := Real.log x / Real.log 10

/-- The recurring C idiom `l = fmod(l, 2π); if (l < 0) l += 2π;` that
shifts a longitude into [0, 2π). -/
def norm2pi (x : ℝ) : ℝ :=
  let m := c_fmod x (2 * π)
  if m < 0 then m + 2 * π else m

/-- `earth.h`: `ABERRATION_CONSTANT` (arcseconds). -/
def ABERRATION_CONSTANT : ℝ := 20.49552

/-- `earth.h`: `ASTRONOMICAL_UNIT` (kilometres). -/
def ASTRONOMICAL_UNIT : ℝ := 149597871

/-- `orbital.c`: `mercury_orbital_coefficients_of_date` (6 elements x 8 coefficients). -/
noncomputable def mercury_orbital_coefficients_of_date : List ℝ :=
  [0.38709830982, 0.0, 0.0, 0.0, 0.0, 0.0, 0.0, 0.0,
   4.40260884240, 26088.1470711010, 0.0005305220, 0.0000003097, 0.0000000022, 0.0, 0.0, 0.0,
   0.04466059760, -0.0544834872, -0.0018063052, 0.0006631851, 0.0000146668, -0.0000023759, -0.0000000510, 0.0000000038,
   0.20072331368, 0.0123315378, -0.0073740873, 0.0001850021, 0.0000445323, 0.0000009447, -0.0000001047, -0.0000000022,
   0.04061563384, -0.0093423887, -0.0009194385, 0.0000651855, 0.0000036846, -0.0000001337, -0.0000000055, 0.0,
   0.04563550461, 0.0085271267, -0.0009554616, -0.0000671422, 0.0000033240, 0.0000001594, -0.0000000043, 0.0]

/-- `orbital.c`: `venus_orbital_coefficients_of_date` (6 elements x 8 coefficients). -/
noncomputable def venus_orbital_coefficients_of_date : List ℝ :=
  [0.72332981996, 0.0, 0.0, 0.0, 0.0, 0.0, 0.0, 0.0,
   3.17614669689, 10213.5294305233, 0.0005421057, 0.0000002537, 0.0, 0.0, 0.0, 0.0,
   -0.00449282133, -0.0009231346, 0.0002250365, -0.0000014408, -0.0000016821, 0.0000000623, 0.0000000051, 0.0,
   0.00506684726, -0.0014569408, -0.0000584775, 0.0000225733, -0.0000006030, -0.0000001007, 0.0000000042, 0.0,
   0.00682410142, -0.0045129495, -0.0001184303, 0.0000177664, 0.0000004721, -0.0000000036, 0.0000000002, 0.0,
   0.02882285775, 0.0011584562, -0.0003492012, -0.0000087791, 0.0000005940, 0.0000000171, 0.0000000013, 0.0]

/-- `orbital.c`: `earth_orbital_coefficients_of_date` (6 elements x 8 coefficients). -/
noncomputable def earth_orbital_coefficients_of_date : List ℝ :=
  [1.00000101778, 0.0, 0.0, 0.0, 0.0, 0.0, 0.0, 0.0,
   1.75347031435, 6283.3199666635, 0.0005300181, 0.0000003692, 0.0, 0.0, 0.0, 0.0,
   -0.00374081650, -0.0047931064, 0.0002811275, 0.0000738309, -0.0000026511, -0.0000003676, 0.0000000082, 0.0,
   0.01628447663, -0.0015323789, -0.0007201706, 0.0000322989, 0.0000057885, -0.0000001659, -0.0000000196, 0.0,
   0.0, -0.00113469002, 0.00001237314, 0.00000127050, 0.0, 0.0, 0.0, 0.0,
   0.0, 0.00010180391, 0.00004701998, -0.00000053829, 0.0, 0.0, 0.0, 0.0]

/-- `orbital.c`: `mars_orbital_coefficients_of_date` (6 elements x 8 coefficients). -/
noncomputable def mars_orbital_coefficients_of_date : List ℝ :=
  [1.52367934191, 0.00000000031, 0.0, 0.0, 0.0, 0.0, 0.0, 0.0,
   6.20348091341, 3340.8562789898, 0.0005427485, 0.0000002663, 0.0, 0.0, 0.0, 0.0,
   0.08536560252, 0.0130050525, -0.0042873758, -0.0002598371, 0.0000354359, 0.0000015619, -0.0000001107, -0.0000000041,
   -0.03789973236, 0.0270627603, 0.0022456771, -0.0004518251, -0.0000225665, 0.0000021906, 0.00000000898, -0.0000000045,
   0.01047042574, -0.0016894313, -0.0000828113, 0.0000036129, -0.0000000219, 0.0000000241, 0.0000000011, 0.0,
   0.01228449307, 0.0013710386, -0.0001073560, -0.0000026035, -0.0000000679, -0.0000000106, 0.0000000024, 0.0]

/-- `orbital.c`: `jupiter_orbital_coefficients_of_date` (6 elements x 8 coefficients). -/
noncomputable def jupiter_orbital_coefficients_of_date : List ℝ :=
  [5.20260319132, 0.00000191323, 0.0, 0.0, 0.0, 0.0, 0.0, 0.0,
   0.59954649739, 529.9348075394, 0.0003904990, 0.0000004374, 0.0, 0.0, 0.0, 0.0,
   0.04698572124, -0.0017969488, -0.0020421373, -0.0000402623, 0.0000168535, 0.0000005800, -0.0000000608, 0.0000000022,
   0.01200385748, 0.0136286045, 0.0000426023, -0.0002108274, -0.0000061282, 0.0000011026, 0.0000000412, -0.0000000027,
   -0.00206561098, -0.0019057263, 0.0001082728, 0.0000089342, -0.0000004218, -0.0000000122, 0.0000000011, 0.0,
   0.01118377157, -0.008397307, -0.0001594888, 0.0000079163, 0.0000003776, -0.0000000205, -0.0000000003, 0.0]

/-- `orbital.c`: `saturn_orbital_coefficients_of_date` (6 elements x 8 coefficients). -/
noncomputable def saturn_orbital_coefficients_of_date : List ℝ :=
  [9.55490959574, -0.00002138917, 0.0, 0.0, 0.0, 0.0, 0.0, 0.0,
   0.87401675650, 213.5429562981, 0.0009067343, -0.0000000557, 0.0000000017, 0.0, 0.0, 0.0,
   -0.00296003595, -0.0188131383, 0.0012832847, 0.0003848105, -0.0000214460, -0.0000025225, 0.0000001112, 0.0000000076,
   0.05542964254, -0.0044777706, -0.0032611427, 0.0002000724, 0.0000346612, -0.0000017338, -0.0000001542, 0.0000000055,
   -0.00871747436, -0.00029141827, 0.0001573509, 0.0000123816, -0.0000007530, -0.0000000283, 0.0000000040, 0.0,
   0.01989147301, -0.0016330436, -0.0002233231, 0.0000111925, 0.0000005881, -0.0000000548, -0.0000000016, 0.0]

/-- `orbital.c`: `uranus_orbital_coefficients_of_date` (6 elements x 8 coefficients). -/
noncomputable def uranus_orbital_coefficients_of_date : List ℝ :=
  [19.21844606178, -0.00000037163, 0.00000009791, 0.0, 0.0, 0.0, 0.0, 0.0,
   5.48129387159, 75.0254311493, 0.0005311712, 0.0000004525, 0.0, 0.0, 0.0, 0.0,
   -0.04595132376, -0.0011912664, 0.0015449390, 0.0000112133, -0.0000083600, -0.0000000380, 0.0000000168, 0.0,
   0.00563791307, -0.0119540732, -0.0001355665, 0.0001320329, 0.0000007337, -0.0000004157, -0.0000000015, 0.0,
   0.00185915075, -0.0005713203, -0.0000197534, -0.0000049897, 0.0000000189, 0.0000000323, 0.0000000006, 0.0,
   0.00648617008, 0.0002340586, 0.0000106597, 0.0000011931, -0.0000004831, -0.0000000048, 0.0000000018, 0.0]

/-- `orbital.c`: `neptune_orbital_coefficients_of_date` (6 elements x 8 coefficients). -/
noncomputable def neptune_orbital_coefficients_of_date : List ℝ :=
  [30.11038686942, 0.00000166346, 0.00000006857, 0.0, 0.0, 0.0, 0.0, 0.0,
   5.31188628676, 38.3768771649, 0.0005397652, 0.0000003066, 0.0, 0.0, 0.0, 0.0,
   0.00599977571, -0.0016231781, -0.0002022529, 0.0000148426, 0.0000012224, -0.0000000341, -0.0000000031, 0.0,
   0.00669242413, 0.0015412378, -0.0001927965, -0.0000180283, 0.0000008224, 0.0000000668, -0.0000000010, 0.0,
   -0.01029147819, -0.0016743180, 0.0003058262, 0.0000056754, -0.0000014012, -0.0000000046, 0.0000000030, 0.0,
   0.01151683985, -0.0025854023, -0.0001182724, 0.0000237388, 0.0000002091, -0.0000000686, 0.0000000001, 0.0]


/-- `orbital.h`: the six mean orbital elements, named after the index
enumeration (`PLANET_MEAN_LONGITUDE`, `SEMI_MAJOR_AXIS`,
`ECCENTRICITY_OF_ORBIT`, `ECLIPTIC_INCLINATION`,
`ASCENDING_NODE_LONGITUDE`, `PERHELION_LONGITUDE`). -/
structure OrbitalElements where
  planet_mean_longitude : ℝ
  semi_major_axis : ℝ
  eccentricity_of_orbit : ℝ
  ecliptic_inclination : ℝ
  ascending_node_longitude : ℝ
  perhelion_longitude : ℝ

/-- `orbital.c`: the inner accumulation of `compute_orbital_elements_series`:
`ve[i] = Σ_{j<m} coefficients[i*m+j] * t^j`. -/
def orbital_ve (t : ℝ) (coefficients : List ℝ) (m : ℕ) (i : ℕ) : ℝ :=
  ∑ j ∈ Finset.range m, coefficients.getD (i * m + j) 0 * t ^ j

/-- `orbital.c`: `compute_orbital_elements_series`.  The ecliptic variables
a, λ, k, h, q, p are rows 0..5 of the coefficient table; ϖ = atan2(h, k),
e = k / cos ϖ, Ω = atan2(p, q), i = 2 asin(q / cos Ω). -/
def compute_orbital_elements_series (t : ℝ) (coefficients : List ℝ) (m : ℕ) : OrbitalElements :=
  let vA := orbital_ve t coefficients m 0
  let vL := orbital_ve t coefficients m 1
  let vK := orbital_ve t coefficients m 2
  let vH := orbital_ve t coefficients m 3
  let vQ := orbital_ve t coefficients m 4
  let vP := orbital_ve t coefficients m 5
  let perhelion := atan2 vH vK
  let ascending := atan2 vP vQ
  ⟨vL, vA, vK / Real.cos perhelion, 2.0 * Real.arcsin (vQ / Real.cos ascending),
    ascending, perhelion⟩

/-- `orbital.c`: `TOTAL_ORBITAL_COEFFICIENTS_OF_DATE`. -/
def TOTAL_ORBITAL_COEFFICIENTS_OF_DATE : ℕ := 8

/-- `orbital.c`: `compute_orbital_elements_of_date` (the `of_J2000` variant
is not reachable from any function studied here and is omitted). -/
def compute_orbital_elements_of_date (oob : ℤ × ℤ) (d : date ℝ) (p : Planet) : OrbitalElements :=
  let t : ℝ := (julian_ephemeris_date oob d - J2000) / DAYS_IN_JULIAN_MILLENIUM
  match p with
  | Planet.MERCURY => compute_orbital_elements_series t mercury_orbital_coefficients_of_date TOTAL_ORBITAL_COEFFICIENTS_OF_DATE
  | Planet.VENUS => compute_orbital_elements_series t venus_orbital_coefficients_of_date TOTAL_ORBITAL_COEFFICIENTS_OF_DATE
  | Planet.EARTH => compute_orbital_elements_series t earth_orbital_coefficients_of_date TOTAL_ORBITAL_COEFFICIENTS_OF_DATE
  | Planet.MARS => compute_orbital_elements_series t mars_orbital_coefficients_of_date TOTAL_ORBITAL_COEFFICIENTS_OF_DATE
  | Planet.JUPITER => compute_orbital_elements_series t jupiter_orbital_coefficients_of_date TOTAL_ORBITAL_COEFFICIENTS_OF_DATE
  | Planet.SATURN => compute_orbital_elements_series t saturn_orbital_coefficients_of_date TOTAL_ORBITAL_COEFFICIENTS_OF_DATE
  | Planet.URANUS => compute_orbital_elements_series t uranus_orbital_coefficients_of_date TOTAL_ORBITAL_COEFFICIENTS_OF_DATE
  | Planet.NEPTUNE => compute_orbital_elements_series t neptune_orbital_coefficients_of_date TOTAL_ORBITAL_COEFFICIENTS_OF_DATE

/-- `earth.c`: the `nutation_multipliers` table (106 terms x 5 Delaunay-argument multipliers). -/
noncomputable def nutation_multipliers : List (ℝ × ℝ × ℝ × ℝ × ℝ) :=
  [(0, 0, 0, 0, 1), (0, 0, 2, -2, 2),
   (0, 0, 2, 0, 2), (0, 0, 0, 0, 2),
   (0, -1, 0, 0, 0), (1, 0, 0, 0, 0),
   (0, 1, 2, -2, 2), (0, 0, 2, 0, 1),
   (1, 0, 2, 0, 2), (0, -1, 2, -2, 2),
   (-1, 0, 0, 2, 0), (0, 0, 2, -2, 1),
   (-1, 0, 2, 0, 2), (1, 0, 0, 0, 1),
   (0, 0, 0, 2, 0), (-1, 0, 2, 2, 2),
   (-1, 0, 0, 0, 1), (1, 0, 2, 0, 1),
   (-2, 0, 0, 2, 0), (-2, 0, 2, 0, 1),
   (0, 0, 2, 2, 2), (2, 0, 2, 0, 2),
   (2, 0, 0, 0, 0), (1, 0, 2, -2, 2),
   (0, 0, 2, 0, 0), (0, 0, 2, -2, 0),
   (-1, 0, 2, 0, 1), (0, 2, 0, 0, 0),
   (0, 2, 2, -2, 2), (-1, 0, 0, 2, 1),
   (0, 1, 0, 0, 1), (1, 0, 0, -2, 1),
   (0, -1, 0, 0, 1), (2, 0, -2, 0, 0),
   (-1, 0, 2, 2, 1), (1, 0, 2, 2, 2),
   (0, -1, 2, 0, 2), (0, 0, 2, 2, 1),
   (1, 1, 0, -2, 0), (0, 1, 2, 0, 2),
   (-2, 0, 0, 2, 1), (0, 0, 0, 2, 1),
   (2, 0, 2, -2, 2), (1, 0, 0, 2, 0),
   (1, 0, 2, -2, 1), (0, 0, 0, -2, 1),
   (0, -1, 2, -2, 1), (2, 0, 2, 0, 1),
   (1, -1, 0, 0, 0), (1, 0, 0, -1, 0),
   (0, 0, 0, 1, 0), (0, 1, 0, -2, 0),
   (1, 0, -2, 0, 0), (2, 0, 0, -2, 1),
   (0, 1, 2, -2, 1), (1, 1, 0, 0, 0),
   (1, -1, 0, -1, 0), (-1, -1, 2, 2, 2),
   (0, -1, 2, 2, 2), (1, -1, 2, 0, 2),
   (3, 0, 2, 0, 2), (-2, 0, 2, 0, 2),
   (1, 0, 2, 0, 0), (-1, 0, 2, 4, 2),
   (1, 0, 0, 0, 2), (-1, 0, 2, -2, 1),
   (0, -2, 2, -2, 1), (-2, 0, 0, 0, 1),
   (2, 0, 0, 0, 1), (3, 0, 0, 0, 0),
   (1, 1, 2, 0, 2), (0, 0, 2, 1, 2),
   (1, 0, 0, 2, 1), (1, 0, 2, 2, 1),
   (1, 1, 0, -2, 1), (0, 1, 0, 2, 0),
   (0, 1, 2, -2, 0), (0, 1, -2, 2, 0),
   (1, 0, -2, 2, 0), (1, 0, -2, -2, 0),
   (1, 0, 2, -2, 0), (1, 0, 0, -4, 0),
   (2, 0, 0, -4, 0), (0, 0, 2, 4, 2),
   (0, 0, 2, -1, 2), (-2, 0, 2, 4, 2),
   (2, 0, 2, 2, 2), (0, -1, 2, 0, 1),
   (0, 0, -2, 0, 1), (0, 0, 4, -2, 2),
   (0, 1, 0, 0, 2), (1, 1, 2, -2, 2),
   (3, 0, 2, -2, 2), (-2, 0, 2, 2, 2),
   (-1, 0, 0, 0, 2), (0, 0, -2, 2, 1),
   (0, 1, 2, 0, 1), (-1, 0, 4, 0, 2),
   (2, 1, 0, -2, 0), (2, 0, 0, 2, 0),
   (2, 0, 2, -2, 1), (2, 0, -2, 0, 1),
   (1, -1, 0, -2, 0), (-1, 0, 0, 1, 1),
   (-1, -1, 0, 2, 1), (0, 1, 0, 1, 0)]

/-- `earth.c`: the `nutation_coefficients` table (period, longitude a b, obliquity a b), in units of 0.0001 arcsec for the coefficients. -/
noncomputable def nutation_coefficients : List (ℝ × ℝ × ℝ × ℝ × ℝ) :=
  [(-6798.4, -171996.0, -174.2, 92025.0, 8.9), (182.6, -13187.0, -1.6, 5736.0, -3.1),
   (13.7, -2274.0, -0.2, 977.0, -0.5), (-3399.2, 2062.0, 0.2, -895.0, 0.5),
   (-365.3, -1426.0, 3.4, 54.0, -0.1), (27.6, 712.0, 0.1, -7.0, 0.0),
   (121.7, -517.0, 1.2, 224.0, -0.6), (13.6, -386.0, -0.4, 200.0, 0.0),
   (9.1, -301.0, 0.0, 129.0, -0.1), (365.2, 217.0, -0.5, -95.0, 0.3),
   (31.8, 158.0, 0.0, -1.0, 0.0), (177.8, 129.0, 0.1, -70.0, 0.0),
   (27.1, 123.0, 0.0, -53.0, 0.0), (27.7, 63.0, 0.1, -33.0, 0.0),
   (14.8, 63.0, 0.0, -2.0, 0.0), (9.6, -59.0, 0.0, 26.0, 0.0),
   (-27.4, -58.0, -0.1, 32.0, 0.0), (9.1, -51.0, 0.0, 27.0, 0.0),
   (-205.9, -48.0, 0.0, 1.0, 0.0), (1305.5, 46.0, 0.0, -24.0, 0.0),
   (7.1, -38.0, 0.0, 16.0, 0.0), (6.9, -31.0, 0.0, 13.0, 0.0),
   (13.8, 29.0, 0.0, -1.0, 0.0), (23.9, 29.0, 0.0, -12.0, 0.0),
   (13.6, 26.0, 0.0, -1.0, 0.0), (173.3, -22.0, 0.0, 0.0, 0.0),
   (27.0, 21.0, 0.0, -10.0, 0.0), (182.6, 17.0, -0.1, 0.0, 0.0),
   (91.3, -16.0, 0.1, 7.0, 0.0), (32.0, 16.0, 0.0, -8.0, 0.0),
   (386.0, -15.0, 0.0, 9.0, 0.0), (-31.7, -13.0, 0.0, 7.0, 0.0),
   (-346.6, -12.0, 0.0, 6.0, 0.0), (-1095.2, 11.0, 0.0, 0.0, 0.0),
   (9.5, -10.0, 0.0, 5.0, 0.0), (5.6, -8.0, 0.0, 3.0, 0.0),
   (14.2, -7.0, 0.0, 3.0, 0.0), (7.1, -7.0, 0.0, 3.0, 0.0),
   (-34.8, -7.0, 0.0, 0.0, 0.0), (13.2, 7.0, 0.0, -3.0, 0.0),
   (-199.8, -6.0, 0.0, 3.0, 0.0), (14.8, -6.0, 0.0, 3.0, 0.0),
   (12.8, 6.0, 0.0, -3.0, 0.0), (9.6, 6.0, 0.0, 0.0, 0.0),
   (23.9, 6.0, 0.0, -3.0, 0.0), (-14.7, -5.0, 0.0, 3.0, 0.0),
   (346.6, -5.0, 0.0, 3.0, 0.0), (6.9, -5.0, 0.0, 3.0, 0.0),
   (29.8, 5.0, 0.0, 0.0, 0.0), (411.8, -4.0, 0.0, 0.0, 0.0),
   (29.5, -4.0, 0.0, 0.0, 0.0), (-15.4, -4.0, 0.0, 0.0, 0.0),
   (-26.9, 4.0, 0.0, 0.0, 0.0), (212.3, 4.0, 0.0, -2.0, 0.0),
   (119.6, 4.0, 0.0, -2.0, 0.0), (25.6, -3.0, 0.0, 0.0, 0.0),
   (-3232.9, -3.0, 0.0, 0.0, 0.0), (9.8, -3.0, 0.0, 1.0, 0.0),
   (7.2, -3.0, 0.0, 1.0, 0.0), (9.4, -3.0, 0.0, 1.0, 0.0),
   (5.5, -3.0, 0.0, 1.0, 0.0), (1615.7, -3.0, 0.0, 1.0, 0.0),
   (9.1, 3.0, 0.0, 0.0, 0.0), (5.8, -2.0, 0.0, 1.0, 0.0),
   (27.8, -2.0, 0.0, 1.0, 0.0), (-32.6, -2.0, 0.0, 1.0, 0.0),
   (6786.3, -2.0, 0.0, 1.0, 0.0), (-13.7, -2.0, 0.0, 1.0, 0.0),
   (13.8, 2.0, 0.0, -1.0, 0.0), (9.2, 2.0, 0.0, 0.0, 0.0),
   (8.9, 2.0, 0.0, -1.0, 0.0), (9.3, 2.0, 0.0, -1.0, 0.0),
   (9.6, -1.0, 0.0, 0.0, 0.0), (5.6, -1.0, 0.0, 1.0, 0.0),
   (-34.7, -1.0, 0.0, 0.0, 0.0), (14.2, -1.0, 0.0, 0.0, 0.0),
   (117.5, -1.0, 0.0, 0.0, 0.0), (-329.8, -1.0, 0.0, 0.0, 0.0),
   (23.8, -1.0, 0.0, 0.0, 0.0), (-9.5, -1.0, 0.0, 0.0, 0.0),
   (32.8, -1.0, 0.0, 0.0, 0.0), (-10.1, -1.0, 0.0, 0.0, 0.0),
   (-15.9, -1.0, 0.0, 0.0, 0.0), (4.8, -1.0, 0.0, 0.0, 0.0),
   (25.4, -1.0, 0.0, 0.0, 0.0), (7.3, -1.0, 0.0, 1.0, 0.0),
   (4.7, -1.0, 0.0, 0.0, 0.0), (14.2, -1.0, 0.0, 0.0, 0.0),
   (-13.6, -1.0, 0.0, 0.0, 0.0), (12.7, 1.0, 0.0, 0.0, 0.0),
   (409.2, 1.0, 0.0, 0.0, 0.0), (22.5, 1.0, 0.0, -1.0, 0.0),
   (8.7, 1.0, 0.0, 0.0, 0.0), (14.6, 1.0, 0.0, -1.0, 0.0),
   (-27.3, 1.0, 0.0, -1.0, 0.0), (-169.0, 1.0, 0.0, 0.0, 0.0),
   (13.1, 1.0, 0.0, 0.0, 0.0), (9.1, 1.0, 0.0, 0.0, 0.0),
   (131.7, 1.0, 0.0, 0.0, 0.0), (7.1, 1.0, 0.0, 0.0, 0.0),
   (12.8, 1.0, 0.0, -1.0, 0.0), (-943.2, 1.0, 0.0, 0.0, 0.0),
   (-29.3, 1.0, 0.0, 0.0, 0.0), (-388.3, 1.0, 0.0, 0.0, 0.0),
   (35.0, 1.0, 0.0, 0.0, 0.0), (27.3, 1.0, 0.0, 0.0, 0.0)]


/-- `earth.c`: one term of the nutation series:
`(a + b t) sin((i₁ l + i₂ l' + i₃ F + i₄ D + i₅ ☊) · π/648000)` for the
longitude series (`cos` for the obliquity series). -/
def nutation_argument (mult : ℝ × ℝ × ℝ × ℝ × ℝ) (da : DelaunayArgs) (lan : ℝ) : ℝ :=
  (mult.1 * da.l + mult.2.1 * da.lp + mult.2.2.1 * da.f + mult.2.2.2.1 * da.d
    + mult.2.2.2.2 * lan) * π / 648000.0

/-- `earth.c`: `nutation_in_longitude` (Δψ, radians): the 106-term IAU 1980
series over the Delaunay arguments and the lunar ascending-node longitude,
scaled from 1e-5 arcseconds to radians. -/
def nutation_in_longitude (env : Env) (d : date ℝ) : ℝ :=
  let t : ℝ := (julian_date d - J2000) / DAYS_IN_JULIAN_CENTURY
  let da := env.delaunay t
  let lan : ℝ := 450160.28 - 6962890.539 * t + 7.455 * t * t + 0.008 * t * t * t
  let n : ℝ := (List.zip nutation_multipliers nutation_coefficients).foldl
    (fun n mc =>
      n + (mc.2.2.1 + mc.2.2.2.1 * t) * Real.sin (nutation_argument mc.1 da lan)) 0.0
  n / 36000000.0 * (π / 180.0)

/-- `earth.c`: `nutation_in_obliquity` (Δε, radians): the same series with
the obliquity coefficient pair and `cos` in place of `sin`. -/
def nutation_in_obliquity (env : Env) (d : date ℝ) : ℝ :=
  let t : ℝ := (julian_date d - J2000) / DAYS_IN_JULIAN_CENTURY
  let da := env.delaunay t
  let lan : ℝ := 450160.28 - 6962890.539 * t + 7.455 * t * t + 0.008 * t * t * t
  let n : ℝ := (List.zip nutation_multipliers nutation_coefficients).foldl
    (fun n mc =>
      n + (mc.2.2.2.2.1 + mc.2.2.2.2.2 * t) * Real.cos (nutation_argument mc.1 da lan)) 0.0
  n / 36000000.0 * (π / 180.0)

/-- `sun.c`: `sun_true_position`.  The heliocentric position of the Earth
from the planetary theory, converted to FK5, inverted to a geocentric
position of the Sun, longitude shifted to [0, 2π). -/
def sun_true_position (env : Env) (d : date ℝ) : ecliptic_point :=
  let t : ℝ := (julian_ephemeris_date env.oob d - J2000) / DAYS_IN_JULIAN_CENTURY
  let sp := env.hpp (t / 10.0) Planet.EARTH
  let lp : ℝ := sp.longitude - (1.397 * t + 0.00031 * t * t) * π / 180.0
  let slong : ℝ := sp.longitude - 0.09033 * π / 180.0 / 3600.0
  let slat : ℝ := sp.latitude + 0.03916 * (Real.cos lp - Real.sin lp) * π / 180.0 / 3600.0
  ⟨norm2pi (slong + π), -slat⟩

/-- `sun.c`: `sun_apparent_position`: the true position corrected for
nutation in longitude and for aberration (`-k/R`), longitude shifted to
[0, 2π). -/
def sun_apparent_position (env : Env) (d : date ℝ) : ecliptic_point :=
  let t : ℝ := (julian_ephemeris_date env.oob d - J2000) / DAYS_IN_JULIAN_CENTURY
  let sp := env.hpp (t / 10.0) Planet.EARTH
  let lp : ℝ := sp.longitude - (1.397 * t + 0.00031 * t * t) * π / 180.0
  let slong : ℝ := sp.longitude - 0.09033 * π / 180.0 / 3600.0
  let slat : ℝ := sp.latitude + 0.03916 * (Real.cos lp - Real.sin lp) * π / 180.0 / 3600.0
  ⟨norm2pi (slong + π + nutation_in_longitude env d
      - (ABERRATION_CONSTANT * π / 648000) / sp.distance), -slat⟩

/-- `sun.c`: `sun_distance_to_earth`. -/
def sun_distance_to_earth (env : Env) (d : date ℝ) : ℝ :=
  let t : ℝ := (julian_ephemeris_date env.oob d - J2000) / DAYS_IN_JULIAN_MILLENIUM
  (env.hpp t Planet.EARTH).distance

/-- `earth.c`: `aberration`.  The local variable `k` (the aberration
constant) is never assigned before the statement `k *= M_PI / 648000.0`;
its initial value is therefore whatever the uninitialised stack cell held,
modelled by `env.kUninit`.  (`ABERRATION_CONSTANT` from `earth.h` is never
used by this function.) -/
def aberration (env : Env) (d : date ℝ) (ep : ecliptic_point) : ecliptic_point :=
  let stp := sun_true_position env d
  let eoe := compute_orbital_elements_of_date env.oob d Planet.EARTH
  let e := eoe.eccentricity_of_orbit
  let p := eoe.perhelion_longitude
  let k : ℝ := env.kUninit * (π / 648000.0)
  ⟨-k * (Real.cos (stp.longitude - ep.longitude)
      - e * k * Real.cos (p - ep.longitude)) / Real.cos ep.latitude,
   -k * Real.sin ep.latitude * (Real.sin (stp.longitude - ep.longitude)
      - e * Real.sin (p - ep.longitude))⟩

/-- `earth.c`: `obliquity_of_ecliptic` (IAU cubic, arcseconds to radians). -/
def obliquity_of_ecliptic (d : date ℝ) : ℝ :=
  let t : ℝ := (julian_date d - J2000) / DAYS_IN_JULIAN_CENTURY
  (84381.448 - 46.8150 * t - 0.00059 * t * t + 0.001813 * t * t * t) * (π / 648000.0)

/-- `coordinates.c`: `equatorial_to_ecliptic`.  Note that the latitude
formula uses `sin(eqp.right_ascension)` where the cited textbook formula
has `sin(declination)`. -/
def equatorial_to_ecliptic (eqp : equatorial_point) (e : ℝ) : ecliptic_point :=
  ⟨atan2 (Real.sin eqp.right_ascension * Real.cos e
      + Real.tan eqp.declination * Real.sin e) (Real.cos eqp.right_ascension),
   Real.arcsin (Real.sin eqp.right_ascension * Real.cos e
      - Real.cos eqp.declination * Real.sin e * Real.sin eqp.right_ascension)⟩

/-- `coordinates.c`: `ecliptic_to_equatorial`. -/
def ecliptic_to_equatorial (ecp : ecliptic_point) (e : ℝ) : equatorial_point :=
  ⟨atan2 (Real.sin ecp.longitude * Real.cos e
      - Real.tan ecp.latitude * Real.sin e) (Real.cos ecp.longitude),
   Real.arcsin (Real.sin ecp.latitude * Real.cos e
      + Real.cos ecp.latitude * Real.sin e * Real.sin ecp.longitude)⟩


/-- The rectangular geocentric coordinates `x, y, z` computed from a
planet's and the Earth's heliocentric spherical positions (the triple of
assignments recurring in `planets.c`). -/
def geovec (psp esp : spherical_point) : ℝ × ℝ × ℝ :=
  (psp.distance * Real.cos psp.latitude * Real.cos psp.longitude
     - esp.distance * Real.cos esp.latitude * Real.cos esp.longitude,
   psp.distance * Real.cos psp.latitude * Real.sin psp.longitude
     - esp.distance * Real.cos esp.latitude * Real.sin esp.longitude,
   psp.distance * Real.sin psp.latitude - esp.distance * Real.sin esp.latitude)

/-- `sqrt (x² + y² + z²)`. -/
def dist3 (v : ℝ × ℝ × ℝ) : ℝ :=
  Real.sqrt (v.1 * v.1 + v.2.1 * v.2.1 + v.2.2 * v.2.2)

/-- `planets.c`: the constant `pr = 10e-7` of `planet_apparent_position`
and `saturnicentric_sun_position` (note: `10e-7` is 1e-6). -/
def light_time_precision : ℝ := 10e-7

/-- `planets.c`: the light-time `while` loop shared by
`planet_apparent_position` and `saturnicentric_sun_position`, with fuel.
State: `lt0` is the light time computed on the current step, `lt1` the one
of the previous step, `xyz` the rectangular geocentric coordinates and
`psp` the heliocentric position from the last executed body.  The C loop
has no iteration bound; `none` means the fuel ran out with the guard still
true. -/
def lt_loop (env : Env) (p : Planet) (t : ℝ) (esp : spherical_point) :
    ℕ → ℝ → ℝ → ℝ × ℝ × ℝ → spherical_point → Option (ℝ × ℝ × (ℝ × ℝ × ℝ) × spherical_point)
  | 0, lt0, lt1, xyz, psp =>
    if |lt0 - lt1| > light_time_precision then none else some (lt0, lt1, xyz, psp)
  | fuel + 1, lt0, lt1, xyz, psp =>
    if |lt0 - lt1| > light_time_precision then
      let psp1 := env.hpp ((t - lt0 / DAYS_IN_JULIAN_CENTURY) / 10.0) p
      let xyz1 := geovec psp1 esp
      let ds := dist3 xyz1
      lt_loop env p t esp fuel (0.0057755183 * ds) lt0 xyz1 psp1
    else some (lt0, lt1, xyz, psp)

/-- `planets.c`: `planet_apparent_position`: light-time iteration, VSOP87
to FK5 frame correction, aberration, nutation in longitude, and the shift
of the longitude into [0, 2π).  Earth as target returns (0, 0).  The
initial `xyz`/`psp` state passed to the loop is dead: the entry guard
`|0 - 2·pr| > pr` always holds, so the body executes at least once. -/
def planet_apparent_position (env : Env) (fuel : ℕ) (d : date ℝ) (p : Planet) :
    Option ecliptic_point :=
  if p ≠ Planet.EARTH then
    let t : ℝ := (julian_ephemeris_date env.oob d - J2000) / DAYS_IN_JULIAN_CENTURY
    let esp := env.hpp (t / 10.0) Planet.EARTH
    match lt_loop env p t esp fuel 0.0 (0.0 + 2 * light_time_precision) (0, 0, 0) ⟨0, 0, 0⟩ with
    | none => none
    | some (_, _, (x, y, z), _) =>
      let lon0 := atan2 y x
      let lat0 := atan2 z (Real.sqrt (x * x + y * y))
      let lp := lon0 - 1.397 * t * π / 180.0 - 0.00031 * t * t * π / 180.0
      let lon1 := lon0 + (-0.09033 + 0.03916 * (Real.cos lp + Real.sin lp * Real.tan lat0)) * π / 64800.0
      let lat1 := lat0 + (0.03916 * (Real.cos lp - Real.sin lp)) * π / 64800.0
      let a := aberration env d ⟨lon1, lat1⟩
      some ⟨norm2pi (lon1 + a.longitude + nutation_in_longitude env d), lat1 + a.latitude⟩
  else
    some ⟨0.0, 0.0⟩

/-- `planets.c`: `planet_distance_to_sun`. -/
def planet_distance_to_sun (env : Env) (d : date ℝ) (p : Planet) : ℝ :=
  let t : ℝ := (julian_ephemeris_date env.oob d - J2000) / DAYS_IN_JULIAN_MILLENIUM
  (env.hpp t p).distance

/-- `planets.c`: `planet_distance_to_earth`; 0 for the Earth itself. -/
def planet_distance_to_earth (env : Env) (d : date ℝ) (p : Planet) : ℝ :=
  if p ≠ Planet.EARTH then
    let t : ℝ := (julian_ephemeris_date env.oob d - J2000) / DAYS_IN_JULIAN_MILLENIUM
    let esp := env.hpp t Planet.EARTH
    let psp := env.hpp t p
    dist3 (geovec psp esp)
  else 0.0

/-- `planets.c`: `planet_phase_angle`; the sentinel -1 for the Earth. -/
def planet_phase_angle (env : Env) (d : date ℝ) (p : Planet) : ℝ :=
  if p ≠ Planet.EARTH then
    let pds := planet_distance_to_sun env d p
    let eds := sun_distance_to_earth env d
    let pde := planet_distance_to_earth env d p
    Real.arccos ((pds * pds + pde * pde - eds * eds) / (2.0 * pds * pde))
  else -1

/-- `planets.c`: `planet_disk_illuminated_fraction`; the sentinel -1 for
the Earth. -/
def planet_disk_illuminated_fraction (env : Env) (d : date ℝ) (p : Planet) : ℝ :=
  if p ≠ Planet.EARTH then
    let i := planet_phase_angle env d p
    (1.0 + Real.cos i) / 2.0
  else -1

/-- `planets.c`: `saturnicentric_earth_position` (static helper for the
magnitude of Saturn). -/
def saturnicentric_earth_position (env : Env) (fuel : ℕ) (d : date ℝ) :
    Option ecliptic_point :=
  let t : ℝ := (julian_ephemeris_date env.oob d - J2000) / DAYS_IN_JULIAN_CENTURY
  let i : ℝ := (28.075216 - 0.012998 * t + 0.000004 * t * t) * (π / 180.0)
  let o : ℝ := (169.508470 + 1.394681 * t + 0.000412 * t * t) * (π / 180.0)
  match planet_apparent_position env fuel d Planet.SATURN with
  | none => none
  | some gsp =>
    some ⟨norm2pi (atan2 (Real.sin i * Real.sin gsp.latitude
        + Real.cos i * Real.cos gsp.latitude * Real.sin (gsp.longitude - o))
        (Real.cos gsp.latitude * Real.cos (gsp.longitude - o))),
      Real.arcsin (Real.sin i * Real.cos gsp.latitude * Real.sin (gsp.longitude - o)
        - Real.cos i * Real.sin gsp.latitude)⟩

/-- `planets.c`: `saturnicentric_sun_position` (static helper for the
magnitude of Saturn), with its own light-time loop whose final
heliocentric position of Saturn is the value used afterwards. -/
def saturnicentric_sun_position (env : Env) (fuel : ℕ) (d : date ℝ) :
    Option ecliptic_point :=
  let t : ℝ := (julian_ephemeris_date env.oob d - J2000) / DAYS_IN_JULIAN_CENTURY
  let esp := env.hpp (t / 10.0) Planet.EARTH
  match lt_loop env Planet.SATURN t esp fuel 0.0 (0.0 + 2 * light_time_precision) (0, 0, 0) ⟨0, 0, 0⟩ with
  | none => none
  | some (_, _, _, ssp) =>
    let i : ℝ := (28.075216 - 0.012998 * t + 0.000004 * t * t) * (π / 180.0)
    let o : ℝ := (169.508470 + 1.394681 * t + 0.000412 * t * t) * (π / 180.0)
    let n : ℝ := (113.6655 + 0.8771 * t) * (π / 180.0)
    let slong : ℝ := ssp.longitude - (0.01759 / ssp.distance) * π / 180.0
    let slat : ℝ := ssp.latitude - (0.000764 * Real.cos (slong - n) / ssp.distance) * π / 180.0
    some ⟨norm2pi (atan2 (Real.sin i * Real.sin slat
        + Real.cos i * Real.cos slat * Real.sin (slong - o))
        (Real.cos slat * Real.cos (slong - o))),
      Real.arcsin (Real.sin i * Real.cos slat * Real.sin (slong - o)
        - Real.cos i * Real.sin slat)⟩

/-- `planets.c`: `planet_apparent_magnitude`.  For the Earth the result
variable `m` is never assigned ("just return whatever value result variable
was initialized with" per the source comment): the returned value is the
uninitialised `env.mUninit`, not a sentinel. -/
def planet_apparent_magnitude (env : Env) (fuel : ℕ) (d : date ℝ) (p : Planet) :
    Option ℝ :=
  if p ≠ Planet.EARTH then
    let pds := planet_distance_to_sun env d p
    let pde := planet_distance_to_earth env d p
    let i := planet_phase_angle env d p * (180.0 / π)
    match p with
    | Planet.MERCURY => some (-0.42 + 5 * log10 (pds * pde) + 0.0380 * i - 0.000273 * i * i + 0.000002 * i * i * i)
    | Planet.VENUS => some (-4.40 + 5 * log10 (pds * pde) + 0.0009 * i + 0.000239 * i * i - 0.00000065 * i * i * i)
    | Planet.MARS => some (-1.52 + 5 * log10 (pds * pde) + 0.016 * i)
    | Planet.JUPITER => some (-9.40 + 5 * log10 (pds * pde) + 0.005 * i)
    | Planet.SATURN =>
      match saturnicentric_earth_position env fuel d, saturnicentric_sun_position env fuel d with
      | some sep, some ssp =>
        let b := |sep.latitude|
        let du := |ssp.longitude - sep.longitude|
        some (-8.88 + 5 * log10 (pds * pde) + 0.44 * du - 2.60 * Real.sin b + 1.25 * Real.sin b * Real.sin b)
      | _, _ => none
    | Planet.URANUS => some (-7.19 + 5 * log10 (pds * pde))
    | Planet.NEPTUNE => some (-6.87 + 5 * log10 (pds * pde))
    | Planet.EARTH => none
  else
    some env.mUninit

/-- `moon.c`: `moon_true_position` from the external lunar theory,
arcseconds to radians, longitude shifted to [0, 2π). -/
def moon_true_position (env : Env) (d : date ℝ) : ecliptic_point :=
  let t : ℝ := (julian_ephemeris_date env.oob d - J2000) / DAYS_IN_JULIAN_CENTURY
  let sp := env.moonPos t
  ⟨norm2pi (sp.longitude * π / 648000), sp.latitude * π / 648000⟩

/-- `moon.c`: `moon_apparent_position`: the true position with nutation in
longitude added to the longitude, which is then shifted back to [0, 2π).
No light-time iteration and no aberration correction is applied. -/
def moon_apparent_position (env : Env) (d : date ℝ) : ecliptic_point :=
  let ep := moon_true_position env d
  ⟨norm2pi (ep.longitude + nutation_in_longitude env d), ep.latitude⟩

/-- `sun.c`: the constant `p = 10e-7` of `equinox_solstice` (1e-6). -/
def equinox_solstice_precision : ℝ := 10e-7

/-- `sun.c`: the `do ... while (c > p)` loop of `equinox_solstice`, with
fuel.  One body computes the Sun's apparent longitude at the current date,
the correction `c = 58 sin(k π/2 - λ)`, adds `c` to the Julian ephemeris
date and converts back to a calendar date using the ΔT of the current
date; the loop continues while `c > p` (the signed value, not `|c|`). -/
def equinox_solstice_loop (env : Env) (k : ℤ) :
    ℕ → date ℝ → ℝ → Option (date ℝ)
  | 0, _, _ => none
  | fuel + 1, d, jde =>
    let sp := sun_apparent_position env d
    let c : ℝ := 58.0 * Real.sin ((k : ℝ) * π / 2 - sp.longitude)
    let jde1 := jde + c
    let d1 := calendar_date (jde1 - dynamical_time_difference env.oob d)
    if c > equinox_solstice_precision then equinox_solstice_loop env k fuel d1 jde1
    else some d1

/-- `sun.c`: `equinox_solstice` (static): seed at day 21 of month
`3 (k + 1)` of the given year and iterate. -/
def equinox_solstice (env : Env) (fuel : ℕ) (y : ℤ) (k : ℤ) : Option (date ℝ) :=
  let d : date ℝ := ⟨21.0, (k + 1) * 3, y⟩
  equinox_solstice_loop env k fuel d (julian_ephemeris_date env.oob d)

/-- The light-time fixed-point sequence of `planet_apparent_position`:
τ₀ = 0 and τ_{n+1} = 0.0057755183 · Δ(t - τ_n), where Δ is the geocentric
distance of the body computed at time t - τ_n (τ in days, t in Julian
centuries). -/
def lt_tau (env : Env) (p : Planet) (t : ℝ) (esp : spherical_point) : ℕ → ℝ
  | 0 => 0.0
  | n + 1 =>
    0.0057755183 * dist3 (geovec
      (env.hpp ((t - lt_tau env p t esp n / DAYS_IN_JULIAN_CENTURY) / 10.0) p) esp)

/-- The local `t` of `planet_apparent_position`: time since J2000 in
Julian centuries. -/
def lt_t (env : Env) (d : date ℝ) : ℝ :=
  (julian_ephemeris_date env.oob d - J2000) / DAYS_IN_JULIAN_CENTURY

/-- The local `esp` of `planet_apparent_position`: the Earth's
heliocentric position at `t`. -/
def lt_esp (env : Env) (d : date ℝ) : spherical_point :=
  env.hpp (lt_t env d / 10.0) Planet.EARTH

/-- The heliocentric position computed by body `n+1` of the light-time loop. -/
def lt_psp (env : Env) (p : Planet) (t : ℝ) (esp : spherical_point) (n : ℕ) : spherical_point :=
  env.hpp ((t - lt_tau env p t esp n / DAYS_IN_JULIAN_CENTURY) / 10.0) p

/-- The rectangular geocentric coordinates computed by body `n+1` of the
light-time loop. -/
def lt_xyz (env : Env) (p : Planet) (t : ℝ) (esp : spherical_point) (n : ℕ) : ℝ × ℝ × ℝ :=
  geovec (lt_psp env p t esp n) esp

/-- The (date, Julian-ephemeris-date) state sequence of the
`equinox_solstice` iteration: state 0 is the seed (day 21 of month
3(k+1)), and each step adds the correction `c` to the Julian ephemeris
date and converts back to a calendar date using the ΔT of the current
date. -/
def eqsol_seq (env : Env) (k y : ℤ) : ℕ → date ℝ × ℝ
  | 0 => (⟨21.0, (k + 1) * 3, y⟩, julian_ephemeris_date env.oob ⟨21.0, (k + 1) * 3, y⟩)
  | n + 1 =>
    let s := eqsol_seq env k y n
    let c : ℝ := 58.0 * Real.sin ((k : ℝ) * π / 2 - (sun_apparent_position env s.1).longitude)
    (calendar_date (s.2 + c - dynamical_time_difference env.oob s.1), s.2 + c)

/-- The correction computed by iteration `n+1` of the `equinox_solstice`
loop (from the state after `n` iterations). -/
def eqsol_corr (env : Env) (k y : ℤ) (n : ℕ) : ℝ :=
  58.0 * Real.sin ((k : ℝ) * π / 2 - (sun_apparent_position env (eqsol_seq env k y n).1).longitude)

/-- A trivial environment (all external providers return zeros), used to
instantiate universally quantified statements at a concrete input. -/
def trivial_env : Env :=
  ⟨fun _ _ => ⟨0, 0, 0⟩, fun _ => ⟨0, 0, 0, 0⟩, fun _ => ⟨0, 0, 0⟩, (0, 0), 0, 0⟩

/-- An environment whose planetary theory puts every body at heliocentric
longitude 0, latitude 0; the Earth at distance 0 and every other body at
distance 1e-4.  The geocentric distance of any non-Earth body is then
exactly 1e-4, making the light-time iteration converge in one step with a
correction of 5.7755183e-7 days. -/
def lt_env : Env :=
  ⟨fun _ p => if p = Planet.EARTH then ⟨0, 0, 0⟩ else ⟨0, 0, 0.0001⟩,
   fun _ => ⟨0, 0, 0, 0⟩, fun _ => ⟨0, 0, 0⟩, (0, 0), 0, 0⟩

/-- A date used to instantiate universally quantified claims at a concrete
input. -/
def probe_date : date ℝ := ⟨1.0, 1, 2000⟩

/-- A family of environments identical in every defined input (planetary
theory, Delaunay arguments, lunar theory, table over-read) and differing
only in the value `kUninit` that the uninitialised variable `k` of
`aberration` happens to hold. -/
def envK (k : ℝ) : Env :=
  ⟨fun _ _ => ⟨0, 0, 0⟩, fun _ => ⟨0, 0, 0, 0⟩, fun _ => ⟨0, 0, 0⟩, (0, 0), k, 0⟩

/-- An ecliptic point sitting on the Sun's true longitude (for `envK`), at
zero latitude: it makes the leading cosine of `aberration` equal to 1. -/
def ab_ep : ecliptic_point := ⟨(sun_true_position (envK 1) probe_date).longitude, 0⟩

/-- The seed date of `equinox_solstice` for the vernal equinox (k = 0) of
year 2000: day 21 of month 3. -/
def eqsol_seed : date ℝ := ⟨21.0, 3, 2000⟩

/-- An environment whose planetary theory is tuned so that the Sun's
apparent longitude at `eqsol_seed` is exactly π/2: the first
equinox-solstice correction is then 58·sin(0 - π/2) = -58. -/
def eq_env : Env :=
  ⟨fun _ _ => ⟨π / 2 - π + 0.09033 * π / 180.0 / 3600.0 + ABERRATION_CONSTANT * π / 648000
      - nutation_in_longitude trivial_env eqsol_seed, 0, 1⟩,
   fun _ => ⟨0, 0, 0, 0⟩, fun _ => ⟨0, 0, 0⟩, (0, 0), 0, 0⟩

end

end Astro



/-! ### Calendar lemmas and claims -/

section CalendarProofs

theorem is_date_valid_always_zero {A : Type} [LinearOrderedField A] [FloorRing A] (d : date A) : is_date_valid d = 0 := by
  unfold is_date_valid
  split
  · rfl
  · have hcond : ((if 0 ≤ d.day ∨ d.day < (month_length d.year d.month : A) then (0 : ℤ) else 1) + 1) ≠ 0 := by
      split <;> norm_num
    rw [if_pos hcond]


theorem is_leap_year_cases (y : ℤ) : is_leap_year y = 0 ∨ is_leap_year y = 1 := by
  unfold is_leap_year; split <;> split <;> simp

theorem month_length_eq (y m : ℤ) (h1 : 1 ≤ m) (h12 : m ≤ 12) :
    month_length y m =
      (if m = 2 then 28 + is_leap_year y else
        if m = 4 ∨ m = 6 ∨ m = 9 ∨ m = 11 then 30 else 31) := by
  rcases is_leap_year_cases y with h | h <;>
    unfold month_length days_in_month <;> rw [h] <;> interval_cases m <;> rfl



theorem itrunc_eq_floor (q : ℚ) (h : 0 ≤ q) : itrunc q = ⌊q⌋ := if_pos h

theorem itrunc_intCast_div (n : ℤ) (m : ℕ) (hn : 0 ≤ n) :
    itrunc ((n : ℚ) / (m : ℚ)) = n / (m : ℤ) := by
  rw [itrunc_eq_floor _ (div_nonneg (by exact_mod_cast hn) (by positivity))]
  exact_mod_cast Rat.floor_intCast_div_natCast n m

theorem itrunc_le_add_one (q : ℚ) : (itrunc q : ℚ) ≤ q + 1 := by
  unfold itrunc
  split
  · have := Int.floor_le q
    push_cast
    linarith
  · push_cast
    have := Int.le_floor.mpr (le_refl (⌊-q⌋ : ℚ))
    have h2 : (⌊-q⌋ : ℚ) ≥ -q - 1 := by
      have := Int.sub_one_lt_floor (-q)
      linarith
    linarith

theorem itrunc_int_add (K : ℤ) (x : ℚ) (hx : 0 ≤ x) (h : 0 ≤ (K : ℚ) + x) :
    itrunc ((K : ℚ) + x) = K + ⌊x⌋ := by
  rw [itrunc_eq_floor _ h, add_comm, Int.floor_add_int, add_comm]

theorem compare_greg_iff (dd : date ℚ) :
    0 ≤ compare_dates GREGORIAN_START_DATE dd ↔
      (1582 < dd.year ∨ (dd.year = 1582 ∧ (10 < dd.month ∨ (dd.month = 10 ∧ 15 ≤ dd.day)))) := by
  unfold compare_dates GREGORIAN_START_DATE OCTOBER
  simp only
  split_ifs with h1 h2 h3 h4 h5 h6
  · exact iff_of_true (by norm_num)
      (Or.inr ⟨h1.symm, Or.inr ⟨h2.symm, by rw [← h3]; norm_num⟩⟩)
  · exact iff_of_true (by norm_num)
      (Or.inr ⟨h1.symm, Or.inr ⟨h2.symm, by linarith⟩⟩)
  · refine iff_of_false (by norm_num) ?_
    rintro (h | ⟨-, h | ⟨-, h⟩⟩)
    · omega
    · omega
    · have h15 : (15.0 : ℚ) = 15 := by norm_num
      rw [h15] at h3 h4
      exact absurd (lt_of_le_of_ne h (fun he => h3 he)) h4
  · exact iff_of_true (by norm_num) (Or.inr ⟨h1.symm, Or.inl (by omega)⟩)
  · refine iff_of_false (by norm_num) ?_
    rintro (h | ⟨-, h | ⟨h, -⟩⟩)
    · omega
    · omega
    · exact h2 h.symm
  · exact iff_of_true (by norm_num) (Or.inl h6)
  · refine iff_of_false (by norm_num) ?_
    rintro (h | ⟨h, -⟩)
    · exact h6 h
    · exact h1 h.symm


theorem julian_date_eq (d : date ℚ) (Y M : ℤ)
    (hY : Y = if d.month = JANUARY ∨ d.month = FEBRUARY then d.year - 1 else d.year)
    (hM : M = if d.month = JANUARY ∨ d.month = FEBRUARY then d.month + 12 else d.month)
    (hY0 : -4716 ≤ Y) (hM3 : 3 ≤ M) :
    julian_date d =
      ((1461 * (Y + 4716) / 4 + 306001 * (M + 1) / 10000 +
        (if 1582 < Y ∨ (Y = 1582 ∧ (10 < M ∨ (M = 10 ∧ 15 ≤ d.day))) then
          2 - Y / 100 + Y / 100 / 4 else 0) : ℤ) : ℚ) + d.day - 1524.5 := by
  unfold julian_date
  simp only [← hY, ← hM]
  have hS : itrunc (365.25 * ((Y : ℚ) + 4716)) = 1461 * (Y + 4716) / 4 := by
    have harg : (365.25 : ℚ) * ((Y : ℚ) + 4716) = ((1461 * (Y + 4716) : ℤ) : ℚ) / ((4 : ℕ) : ℚ) := by
      push_cast; ring
    rw [harg, itrunc_intCast_div _ _ (by omega)]
    norm_num
  have hF : itrunc (30.6001 * ((M : ℚ) + 1)) = 306001 * (M + 1) / 10000 := by
    have harg : (30.6001 : ℚ) * ((M : ℚ) + 1) = ((306001 * (M + 1) : ℤ) : ℚ) / ((10000 : ℕ) : ℚ) := by
      push_cast; ring
    rw [harg, itrunc_intCast_div _ _ (by omega)]
    norm_num
  have hcmp := compare_greg_iff ⟨d.day, M, Y⟩
  simp only at hcmp
  rw [hS, hF]
  by_cases hG : 1582 < Y ∨ (Y = 1582 ∧ (10 < M ∨ (M = 10 ∧ 15 ≤ d.day)))
  · rw [if_pos (hcmp.mpr hG), if_pos hG]
    have hYpos : (0 : ℤ) ≤ Y := by omega
    have ht1 : Int.tdiv Y 100 = Y / 100 := Int.tdiv_eq_ediv hYpos (by norm_num)
    have ht2 : Int.tdiv (Y / 100) 4 = Y / 100 / 4 :=
      Int.tdiv_eq_ediv (by positivity) (by norm_num)
    rw [ht1, ht2]
  · rw [if_neg (fun hc => hG (hcmp.mp hc)), if_neg hG]


theorem itrunc_intCast (n : ℤ) : itrunc ((n : ℚ)) = n := by
  unfold itrunc
  split
  · exact Int.floor_intCast n
  · rw [← Int.cast_neg, Int.floor_intCast]; ring

theorem calendar_date_eval (jdn : ℚ) (z : ℤ) (f : ℚ)
    (hzf : jdn + 0.5 = (z : ℚ) + f) (hf0 : 0 ≤ f) (hf1 : f < 1) (hz0 : 0 ≤ z) :
    calendar_date jdn = ⟨(cd_day z : ℚ) + f, cd_mo z, cd_yr z⟩ := by
  have hzq0 : (0 : ℚ) ≤ (z : ℚ) := by exact_mod_cast hz0
  have hztr : itrunc (jdn + 0.5) = z := by
    rw [hzf, itrunc_int_add z f hf0 (by linarith)]
    rw [show ⌊f⌋ = 0 from Int.floor_eq_zero_iff.mpr ⟨hf0, hf1⟩, add_zero]
  have hfeq : jdn + 0.5 - (z : ℚ) = f := by linarith
  -- the value of cd_b in each branch, and its positivity
  have hbpos : 1524 ≤ cd_b z := by
    unfold cd_b cd_a
    split
    · omega
    · rename_i h
      omega
  unfold calendar_date
  simp only [hztr, hfeq]
  -- turn the branch condition into the integer one
  have hacast : ((if (z:ℚ) < 2299161.0 then (z:ℚ) else
      (z:ℚ) + 1.0 + (itrunc (((z:ℚ) - 1867216.25) / 36524.25) : ℚ)
        - (itrunc ((itrunc (((z:ℚ) - 1867216.25) / 36524.25) : ℚ) / 4.0) : ℚ))) = ((cd_a z : ℤ) : ℚ) := by
    have hlit : (2299161.0 : ℚ) = ((2299161 : ℤ) : ℚ) := by norm_num
    by_cases hlt : z < 2299161
    · rw [if_pos (by rw [hlit]; exact_mod_cast hlt)]
      unfold cd_a
      rw [if_pos hlt]
    · rw [if_neg (by rw [hlit]; exact_mod_cast hlt)]
      have hap : itrunc (((z:ℚ) - 1867216.25) / 36524.25) = (4 * z - 7468865) / 146097 := by
        have harg : ((z:ℚ) - 1867216.25) / 36524.25 = ((4 * z - 7468865 : ℤ) : ℚ) / ((146097 : ℕ) : ℚ) := by
          push_cast; ring
        rw [harg, itrunc_intCast_div _ _ (by omega)]
        norm_num
      rw [hap]
      have hap4 : itrunc (((((4 * z - 7468865) / 146097 : ℤ)) : ℚ) / 4.0) = (4 * z - 7468865) / 146097 / 4 := by
        have harg : ((((4 * z - 7468865) / 146097 : ℤ)) : ℚ) / 4.0 = (((4 * z - 7468865) / 146097 : ℤ) : ℚ) / ((4 : ℕ) : ℚ) := by
          norm_num
        rw [harg, itrunc_intCast_div _ _ (by omega)]
        norm_num
      rw [hap4]
      unfold cd_a
      rw [if_neg hlt]
      push_cast
      ring
  rw [hacast]
  have hb : ((cd_a z : ℤ) : ℚ) + 1524.0 = ((cd_b z : ℤ) : ℚ) := by
    unfold cd_b; push_cast; norm_num
  rw [hb]
  have hc : itrunc ((((cd_b z : ℤ) : ℚ) - 122.1) / 365.25) = cd_c z := by
    have harg : (((cd_b z : ℤ) : ℚ) - 122.1) / 365.25 = ((20 * cd_b z - 2442 : ℤ) : ℚ) / ((7305 : ℕ) : ℚ) := by
      push_cast; ring
    rw [harg, itrunc_intCast_div _ _ (by omega)]
    unfold cd_c; norm_num
  rw [hc]
  have hcpos : 3 ≤ cd_c z := by
    unfold cd_c; omega
  have hdd : itrunc (365.25 * ((cd_c z : ℤ) : ℚ)) = cd_d z := by
    have harg : (365.25 : ℚ) * ((cd_c z : ℤ) : ℚ) = ((1461 * cd_c z : ℤ) : ℚ) / ((4 : ℕ) : ℚ) := by
      push_cast; ring
    rw [harg, itrunc_intCast_div _ _ (by omega)]
    unfold cd_d; norm_num
  rw [hdd]
  have hddle : cd_d z ≤ cd_b z - 123 := by
    unfold cd_d
    have h1 : 7305 * cd_c z ≤ 20 * cd_b z - 2442 := by
      unfold cd_c; omega
    omega
  have he : itrunc ((((cd_b z : ℤ) : ℚ) - ((cd_d z : ℤ) : ℚ)) / 30.6001) = cd_e z := by
    have harg : (((cd_b z : ℤ) : ℚ) - ((cd_d z : ℤ) : ℚ)) / 30.6001
        = ((10000 * (cd_b z - cd_d z) : ℤ) : ℚ) / ((306001 : ℕ) : ℚ) := by
      push_cast; ring
    rw [harg, itrunc_intCast_div _ _ (by omega)]
    unfold cd_e; norm_num
  rw [he]
  have hepos : 0 ≤ cd_e z := by
    unfold cd_e; omega
  have hg : itrunc (30.6001 * ((cd_e z : ℤ) : ℚ)) = 306001 * cd_e z / 10000 := by
    have harg : (30.6001 : ℚ) * ((cd_e z : ℤ) : ℚ) = ((306001 * cd_e z : ℤ) : ℚ) / ((10000 : ℕ) : ℚ) := by
      push_cast; ring
    rw [harg, itrunc_intCast_div _ _ (by omega)]
    norm_num
  rw [hg]
  have hmo : (if ((cd_e z : ℤ) : ℚ) < 14.0 then itrunc ((cd_e z : ℤ) : ℚ) - 1 else itrunc ((cd_e z : ℤ) : ℚ) - 13) = cd_mo z := by
    rw [itrunc_intCast]
    unfold cd_mo
    have hlit : (14.0 : ℚ) = ((14 : ℤ) : ℚ) := by norm_num
    by_cases h14 : cd_e z < 14
    · rw [if_pos (by rw [hlit]; exact_mod_cast h14), if_pos h14]
    · rw [if_neg (by rw [hlit]; exact_mod_cast h14), if_neg h14]
  rw [hmo]
  have hday : ((cd_b z : ℤ) : ℚ) - ((cd_d z : ℤ) : ℚ) - ((306001 * cd_e z / 10000 : ℤ) : ℚ) + f
      = ((cd_day z : ℤ) : ℚ) + f := by
    unfold cd_day; push_cast; ring
  rw [hday]
  have hyr : (if 2 < cd_mo z then itrunc ((cd_c z : ℤ) : ℚ) - 4716 else itrunc ((cd_c z : ℤ) : ℚ) - 4715) = cd_yr z := by
    rw [itrunc_intCast]
    unfold cd_yr
    by_cases h2 : 2 < cd_mo z
    · rw [if_pos h2]
    · rw [if_neg h2]
  rw [hyr]




theorem day_of_year_bounds (d : date ℚ) (hm1 : 1 ≤ d.month) (hm12 : d.month ≤ 12)
    (hd1 : 1 ≤ d.day) (hd2 : d.day < (month_length d.year d.month : ℚ) + 1) :
    1 ≤ day_of_year d ∧ day_of_year d ≤ 365 + is_leap_year d.year := by
  have hml := month_length_eq d.year d.month hm1 hm12
  have hfl1 : 1 ≤ ⌊d.day⌋ := by
    rw [Int.le_floor]; exact_mod_cast hd1
  have hfl2 : ⌊d.day⌋ ≤ month_length d.year d.month := by
    have : (⌊d.day⌋ : ℚ) ≤ d.day := Int.floor_le d.day
    have h2 : (⌊d.day⌋ : ℚ) < (month_length d.year d.month : ℚ) + 1 := lt_of_le_of_lt this hd2
    exact_mod_cast Int.lt_add_one_iff.mp (by exact_mod_cast h2)
  have hdayI : itrunc d.day = ⌊d.day⌋ := by
    unfold itrunc; rw [if_pos (le_trans (by norm_num) hd1)]
  rcases is_leap_year_cases d.year with hL | hL <;>
    unfold day_of_year <;> rw [hL] at hml ⊢ <;> rw [hdayI] <;>
    interval_cases d.month <;>
    simp only [hml] at hfl2 <;>
    norm_num [itrunc, Int.floor_eq_iff] <;> omega


theorem is_leap_year_spec (y : ℤ) :
    (is_leap_year y = 1 ∧ (if 1582 ≤ y then ((y % 4 = 0 ∧ y % 100 ≠ 0) ∨ y % 400 = 0) else y % 4 = 0))
  ∨ (is_leap_year y = 0 ∧ ¬(if 1582 ≤ y then ((y % 4 = 0 ∧ y % 100 ≠ 0) ∨ y % 400 = 0) else y % 4 = 0)) := by
  unfold is_leap_year GREGORIAN_START_DATE
  simp only
  split_ifs with h1 h2 h3 <;> simp_all

set_option maxHeartbeats 2000000 in
theorem cd_julian (y0 m0 dint z : ℤ)
    (hm1 : 1 ≤ m0) (hm12 : m0 ≤ 12)
    (Y M : ℤ)
    (hY : Y = if m0 = 1 ∨ m0 = 2 then y0 - 1 else y0)
    (hM : M = if m0 = 1 ∨ m0 = 2 then m0 + 12 else m0)
    (hJ : ¬(1582 < Y ∨ (Y = 1582 ∧ (10 < M ∨ (M = 10 ∧ 15 ≤ dint)))))
    (hgap : ¬(y0 = 1582 ∧ m0 = 10 ∧ 5 ≤ dint ∧ dint ≤ 14))
    (hd1 : 1 ≤ dint) (hdm : dint ≤ month_length y0 m0)
    (hz : z = 1461 * (Y + 4716) / 4 + 306001 * (M + 1) / 10000 + dint - 1524)
    (hz0 : 0 ≤ z) :
    z < 2299161 ∧ cd_day z = dint ∧ cd_mo z = m0 ∧ cd_yr z = y0 := by
  have hml := month_length_eq y0 m0 hm1 hm12
  interval_cases m0 <;>
    (norm_num at hY hM hml
     rw [hml] at hdm
     rcases is_leap_year_spec y0 with ⟨hL, hLc⟩ | ⟨hL, hLc⟩ <;>
       (try rw [hL] at hdm) <;>
       split_ifs at hLc <;>
       (have hzlt : z < 2299161 := by omega
        have ha : cd_a z = z := by unfold cd_a; rw [if_pos hzlt]
        have hb : cd_b z = z + 1524 := by unfold cd_b; rw [ha]
        have hc : cd_c z = Y + 4716 := by unfold cd_c; rw [hb]; omega
        have hdd : cd_d z = 1461 * (Y + 4716) / 4 := by unfold cd_d; rw [hc]
        have he : cd_e z = M + 1 := by unfold cd_e; rw [hb, hdd]; omega
        refine ⟨hzlt, ?_, ?_, ?_⟩
        · unfold cd_day; rw [hb, hdd, he]; omega
        · unfold cd_mo; rw [he]; split <;> omega
        · unfold cd_yr cd_mo; rw [he, hc]; split_ifs <;> omega))


set_option maxHeartbeats 4000000 in
theorem cd_gregorian (y0 m0 dint z : ℤ)
    (hm1 : 1 ≤ m0) (hm12 : m0 ≤ 12)
    (Y M : ℤ)
    (hY : Y = if m0 = 1 ∨ m0 = 2 then y0 - 1 else y0)
    (hM : M = if m0 = 1 ∨ m0 = 2 then m0 + 12 else m0)
    (hG : 1582 < Y ∨ (Y = 1582 ∧ (10 < M ∨ (M = 10 ∧ 15 ≤ dint))))
    (hgap : ¬(y0 = 1582 ∧ m0 = 10 ∧ 5 ≤ dint ∧ dint ≤ 14))
    (hd1 : 1 ≤ dint) (hdm : dint ≤ month_length y0 m0)
    (hz : z = 1461 * (Y + 4716) / 4 + 306001 * (M + 1) / 10000 + (2 - Y / 100 + Y / 100 / 4) + dint - 1524) :
    2299161 ≤ z ∧ cd_day z = dint ∧ cd_mo z = m0 ∧ cd_yr z = y0 := by
  have hml := month_length_eq y0 m0 hm1 hm12
  have hYlow : 1582 ≤ Y := by omega
  have hS4 : 4 * (1461 * (Y + 4716) / 4) = 1461 * (Y + 4716) - Y % 4 := by omega
  have hA4 : Y / 100 / 4 = Y / 400 := by omega
  interval_cases m0 <;>
    (norm_num at hY hM hml
     rw [hml] at hdm
     rcases is_leap_year_spec y0 with ⟨hL, hLc⟩ | ⟨hL, hLc⟩ <;>
       (try rw [hL] at hdm) <;>
       split_ifs at hLc <;>
       (try omega) <;>
       (have hap : (4 * z - 7468865) / 146097 = Y / 100 - 4 := by
          by_cases hr : Y % 100 = 99
          · by_cases h400 : (Y + 1) % 400 = 0 <;> omega
          · omega
        have hzge : 2299161 ≤ z := by omega
        have ha : cd_a z = z + 1 + (Y / 100 - 4) - (Y / 100 - 4) / 4 := by
          unfold cd_a
          rw [if_neg (by omega), hap]
        have hb : cd_b z = 1461 * (Y + 4716) / 4 + 306001 * (M + 1) / 10000 + dint := by
          unfold cd_b; rw [ha]; omega
        have hc : cd_c z = Y + 4716 := by unfold cd_c; rw [hb]; omega
        have hdd : cd_d z = 1461 * (Y + 4716) / 4 := by unfold cd_d; rw [hc]
        have he : cd_e z = M + 1 := by unfold cd_e; rw [hb, hdd]; omega
        refine ⟨hzge, ?_, ?_, ?_⟩
        · unfold cd_day; rw [hb, hdd, he]; omega
        · unfold cd_mo; rw [he]; split <;> omega
        · unfold cd_yr cd_mo; rw [he, hc]; split_ifs <;> omega))


theorem month_length_le (y m : ℤ) (h1 : 1 ≤ m) (h12 : m ≤ 12) : month_length y m ≤ 31 := by
  rw [month_length_eq y m h1 h12]
  rcases is_leap_year_cases y with h | h <;> split_ifs <;> omega

set_option maxHeartbeats 1000000 in
theorem calendar_date_round_trip (d : date ℚ) (h : ValidDate d) :
    calendar_date (julian_date d) = d := by
  obtain ⟨dday, dmon, dyear⟩ := d
  obtain ⟨hm1, hm12, hd1, hdml, hjd0, hgap⟩ := h
  simp only at hm1 hm12 hd1 hdml hjd0 hgap
  rw [show JANUARY = 1 from rfl] at hm1
  rw [show DECEMBER = 12 from rfl] at hm12
  rw [show OCTOBER = 10 from rfl] at hgap
  set Y : ℤ := if dmon = 1 ∨ dmon = 2 then dyear - 1 else dyear with hY
  set M : ℤ := if dmon = 1 ∨ dmon = 2 then dmon + 12 else dmon with hM
  have hYJF : Y = if (⟨dday, dmon, dyear⟩ : date ℚ).month = JANUARY ∨ (⟨dday, dmon, dyear⟩ : date ℚ).month = FEBRUARY then (⟨dday, dmon, dyear⟩ : date ℚ).year - 1 else (⟨dday, dmon, dyear⟩ : date ℚ).year := by
    simp only [hY]; rfl
  have hMJF : M = if (⟨dday, dmon, dyear⟩ : date ℚ).month = JANUARY ∨ (⟨dday, dmon, dyear⟩ : date ℚ).month = FEBRUARY then (⟨dday, dmon, dyear⟩ : date ℚ).month + 12 else (⟨dday, dmon, dyear⟩ : date ℚ).month := by
    simp only [hM]; rfl
  have hM3 : 3 ≤ M := by rw [hM]; split <;> omega
  have hM14 : M ≤ 14 := by rw [hM]; split <;> omega
  -- the shifted year is at least -4716, else the Julian date would be negative
  have hY0 : -4716 ≤ Y := by
    by_cases hG : 1582 < Y ∨ (Y = 1582 ∧ (10 < M ∨ (M = 10 ∧ 15 ≤ dday)))
    · omega
    · by_contra hY17
      push_neg at hY17
      have hb0 : julian_date ⟨dday, dmon, dyear⟩ =
          ((itrunc (365.25 * ((Y : ℚ) + 4716)) + itrunc (30.6001 * ((M : ℚ) + 1)) + 0 : ℤ) : ℚ) + dday - 1524.5 := by
        unfold julian_date
        simp only [← hYJF, ← hMJF]
        rw [if_neg]
        intro hc
        exact hG ((compare_greg_iff ⟨dday, M, Y⟩).mp hc)
      have hT1 : (itrunc (365.25 * ((Y : ℚ) + 4716)) : ℚ) ≤ 365.25 * ((Y : ℚ) + 4716) + 1 :=
        itrunc_le_add_one _
      have hT2 : (itrunc (30.6001 * ((M : ℚ) + 1)) : ℚ) ≤ 30.6001 * ((M : ℚ) + 1) + 1 :=
        itrunc_le_add_one _
      have hMQ : ((M : ℚ) + 1) ≤ 15 := by
        have : M ≤ 14 := hM14
        exact_mod_cast by exact_mod_cast Int.add_le_add_right this 1
      have hYQ : (Y : ℚ) + 4716 ≤ -1 := by
        have : Y + 4716 ≤ -1 := by omega
        exact_mod_cast this
      have hdaylt : dday < 32 := by
        have h31 := month_length_le dyear dmon hm1 hm12
        have : (month_length dyear dmon : ℚ) ≤ 31 := by exact_mod_cast h31
        linarith
      rw [hb0] at hjd0
      push_cast at hjd0
      nlinarith [hT1, hT2]
  have hjde := julian_date_eq ⟨dday, dmon, dyear⟩ Y M hYJF hMJF hY0 hM3
  simp only at hjde
  -- integer and fractional day parts
  set dint : ℤ := ⌊dday⌋ with hdint
  set f : ℚ := Int.fract dday with hf
  have hdayspl : dday = (dint : ℚ) + f := by rw [hdint, hf]; exact (Int.floor_add_fract dday).symm
  have hf0 : 0 ≤ f := Int.fract_nonneg dday
  have hf1 : f < 1 := Int.fract_lt_one dday
  have hd1i : 1 ≤ dint := by rw [hdint, Int.le_floor]; exact_mod_cast hd1
  have hdmi : dint ≤ month_length dyear dmon := by
    have hlt : (dint : ℚ) < (month_length dyear dmon : ℚ) + 1 := by
      calc (dint : ℚ) ≤ dday := by rw [hdint]; exact Int.floor_le dday
      _ < (month_length dyear dmon : ℚ) + 1 := hdml
    have h2 : (dint : ℚ) < ((month_length dyear dmon + 1 : ℤ) : ℚ) := by push_cast; linarith
    have h3 : dint < month_length dyear dmon + 1 := by exact_mod_cast h2
    omega
  have hgapi : ¬(dyear = 1582 ∧ dmon = 10 ∧ 5 ≤ dint ∧ dint ≤ 14) := by
    rintro ⟨hy, hmn, h5, h14⟩
    apply hgap
    refine ⟨hy, hmn, ?_, ?_⟩
    · have : ((5:ℤ) : ℚ) ≤ (dint : ℚ) := by exact_mod_cast h5
      calc (5 : ℚ) ≤ (dint : ℚ) := by exact_mod_cast this
        _ ≤ dday := by rw [hdint]; exact Int.floor_le dday
    · have : (dint : ℚ) + 1 ≤ 15 := by
        have : dint + 1 ≤ 15 := by omega
        exact_mod_cast this
      calc dday < (dint : ℚ) + 1 := by rw [hdint]; exact Int.lt_floor_add_one dday
        _ ≤ 15 := this
  have hday15 : (15 ≤ dday) ↔ (15 ≤ dint) := by
    constructor
    · intro hq
      rw [hdint, Int.le_floor]
      exact_mod_cast hq
    · intro hi
      calc (15 : ℚ) ≤ (dint : ℚ) := by exact_mod_cast hi
        _ ≤ dday := by rw [hdint]; exact Int.floor_le dday
  by_cases hG : 1582 < Y ∨ (Y = 1582 ∧ (10 < M ∨ (M = 10 ∧ 15 ≤ dday)))
  · -- Gregorian branch
    have hGi : 1582 < Y ∨ (Y = 1582 ∧ (10 < M ∨ (M = 10 ∧ 15 ≤ dint))) := by
      rcases hG with h | ⟨h1, h2 | ⟨h2, h3⟩⟩
      · exact Or.inl h
      · exact Or.inr ⟨h1, Or.inl h2⟩
      · exact Or.inr ⟨h1, Or.inr ⟨h2, hday15.mp h3⟩⟩
    set z : ℤ := 1461 * (Y + 4716) / 4 + 306001 * (M + 1) / 10000 + (2 - Y / 100 + Y / 100 / 4) + dint - 1524 with hzd
    have hzf : julian_date ⟨dday, dmon, dyear⟩ + 0.5 = (z : ℚ) + f := by
      rw [hjde, if_pos hG, hzd]
      push_cast
      rw [hdayspl]
      push_cast
      ring
    have hz0 : 0 ≤ z := by
      have hneg : (-1 : ℚ) < (z : ℚ) := by
        have h1 : (z : ℚ) = julian_date ⟨dday, dmon, dyear⟩ + 0.5 - f := by linarith [hzf]
        rw [h1]
        have h05 : (0.5 : ℚ) = 1/2 := by norm_num
        linarith [hjd0, hf1]
      have : (-1 : ℤ) < z := by exact_mod_cast hneg
      omega
    rw [calendar_date_eval _ z f hzf hf0 hf1 hz0]
    obtain ⟨hzge, hcd, hcm, hcy⟩ := cd_gregorian dyear dmon dint z hm1 hm12 Y M hY hM hGi hgapi hd1i hdmi hzd
    rw [hcd, hcm, hcy, ← hdayspl]
  · -- Julian branch
    have hGi : ¬(1582 < Y ∨ (Y = 1582 ∧ (10 < M ∨ (M = 10 ∧ 15 ≤ dint)))) := by
      intro hc
      apply hG
      rcases hc with h | ⟨h1, h2 | ⟨h2, h3⟩⟩
      · exact Or.inl h
      · exact Or.inr ⟨h1, Or.inl h2⟩
      · exact Or.inr ⟨h1, Or.inr ⟨h2, hday15.mpr h3⟩⟩
    set z : ℤ := 1461 * (Y + 4716) / 4 + 306001 * (M + 1) / 10000 + dint - 1524 with hzd
    have hzf : julian_date ⟨dday, dmon, dyear⟩ + 0.5 = (z : ℚ) + f := by
      rw [hjde, if_neg hG, hzd]
      push_cast
      rw [hdayspl]
      push_cast
      ring
    have hz0 : 0 ≤ z := by
      have hneg : (-1 : ℚ) < (z : ℚ) := by
        have h1 : (z : ℚ) = julian_date ⟨dday, dmon, dyear⟩ + 0.5 - f := by linarith [hzf]
        rw [h1]
        have h05 : (0.5 : ℚ) = 1/2 := by norm_num
        linarith [hjd0, hf1]
      have : (-1 : ℤ) < z := by exact_mod_cast hneg
      omega
    rw [calendar_date_eval _ z f hzf hf0 hf1 hz0]
    obtain ⟨hzlt, hcd, hcm, hcy⟩ := cd_julian dyear dmon dint z hm1 hm12 Y M hY hM hGi hgapi hd1i hdmi hzd hz0
    rw [hcd, hcm, hcy, ← hdayspl]



/-- C1: contrary to the claim, `is_date_valid` returns 0 for every date,
including 4 October 1582 and 15 October 1582, which the claim says it
accepts.  The day-range check `!(d.day >= 0 || d.day < ...) + 1` is always
nonzero by C operator precedence, so the function always takes the early
`return 0`. -/
theorem C1_is_date_valid_rejects_everything :
    is_date_valid (⟨4.0, OCTOBER, 1582⟩ : date ℚ) = 0 ∧
    is_date_valid (⟨15.0, OCTOBER, 1582⟩ : date ℚ) = 0 ∧
    ∀ d : date ℚ, is_date_valid d = 0 :=
  ⟨is_date_valid_always_zero _, is_date_valid_always_zero _,
    fun d => is_date_valid_always_zero d⟩

/-- C9: the calendar date 1.5 January -4712 has Julian date 0.0, and
`day_of_week` applied to it returns `MONDAY` (= 1). -/
theorem C9_julian_date_zero_is_monday :
    julian_date (⟨1.5, JANUARY, -4712⟩ : date ℚ) = 0 ∧
    day_of_week (⟨1.5, JANUARY, -4712⟩ : date ℚ) = MONDAY := by
  have h : julian_date (⟨1.5, JANUARY, -4712⟩ : date ℚ) = 0 := by
    norm_num [julian_date, itrunc, compare_dates, GREGORIAN_START_DATE, JANUARY, FEBRUARY,
      Int.floor_eq_iff]
  constructor
  · exact h
  · rw [day_of_week, h]
    norm_num [c_fmod, itrunc, MONDAY, Int.floor_eq_iff]

/-- C6: for every valid calendar date `d`, `calendar_date (julian_date d)`
reconstructs `d`: year and month are equal and the day differs by at most
1e-6 (in fact the reconstruction is exact in the real-arithmetic model). -/
theorem C6_round_trip (d : date ℚ) (h : ValidDate d) :
    (calendar_date (julian_date d)).year = d.year ∧
    (calendar_date (julian_date d)).month = d.month ∧
    |(calendar_date (julian_date d)).day - d.day| ≤ 1e-6 := by
  rw [calendar_date_round_trip d h]
  refine ⟨rfl, rfl, ?_⟩
  rw [sub_self, abs_zero]
  norm_num

/-- Witness for C6 at 15.5 October 1582. -/
theorem C6_round_trip_witness :
    ValidDate (⟨15.5, OCTOBER, 1582⟩ : date ℚ) ∧
    ((calendar_date (julian_date (⟨15.5, OCTOBER, 1582⟩ : date ℚ))).year = 1582 ∧
     (calendar_date (julian_date (⟨15.5, OCTOBER, 1582⟩ : date ℚ))).month = OCTOBER ∧
     |(calendar_date (julian_date (⟨15.5, OCTOBER, 1582⟩ : date ℚ))).day - 15.5| ≤ 1e-6) := by
  have hv : ValidDate (⟨15.5, OCTOBER, 1582⟩ : date ℚ) := by
    refine ⟨by norm_num [JANUARY, OCTOBER], by norm_num [DECEMBER, OCTOBER], by norm_num, ?_, ?_, ?_⟩
    · have hml : month_length 1582 OCTOBER = 31 := by decide
      rw [hml]; norm_num
    · norm_num [julian_date, itrunc, compare_dates, GREGORIAN_START_DATE, JANUARY, FEBRUARY,
        OCTOBER, Int.floor_eq_iff, Int.tdiv]
    · norm_num [OCTOBER]
  exact ⟨hv, C6_round_trip ⟨15.5, OCTOBER, 1582⟩ hv⟩

theorem pre_table_years : ∀ i : ℕ, i < 28 →
    (deltat_pre_telescope_era.getD i (0, 0, 0)).1 = -1000 + 100 * (i : ℤ) := by decide

theorem tel_table_years : ∀ i : ℕ, i < 33 →
    (deltat_telescope_era.getD i (0, 0, 0)).1 = 1700 + 10 * (i : ℤ) := by decide

theorem deltat_row_in_range (tbl : List (ℤ × ℤ × ℤ)) (oob : ℤ × ℤ) (i : ℤ)
    (h0 : 0 ≤ i) (h : i.toNat < tbl.length) :
    deltat_row tbl oob i = tbl.getD i.toNat (0, 0, 0) := by
  unfold deltat_row
  rw [List.getD_eq_getElem _ _ h, List.getD_eq_getElem _ _ h]

theorem deltaT_interpolation (oob : ℤ × ℤ) (d : date ℚ)
    (hm1 : 1 ≤ d.month) (hm12 : d.month ≤ 12)
    (hd1 : 1 ≤ d.day) (hd2 : d.day < (month_length d.year d.month : ℚ) + 1)
    (hy1 : -1000 ≤ d.year) (hy2 : d.year ≤ 2019) :
    ∃ i : ℕ, ∃ x0 y0 u0 x1 y1 u1 : ℤ,
      (if d.year < 1700 then deltat_pre_telescope_era else deltat_telescope_era).getD i (0,0,0) = (x0, y0, u0) ∧
      (if d.year < 1700 then deltat_pre_telescope_era else deltat_telescope_era).getD (i+1) (0,0,0) = (x1, y1, u1) ∧
      x1 = x0 + (if d.year < 1700 then 100 else 10) ∧
      (x0 : ℚ) ≤ decimal_year d ∧ decimal_year d ≤ (x1 : ℚ) ∧
      dynamical_time_difference oob d =
        (y0 : ℚ) + (decimal_year d - (x0 : ℚ)) * ((y1 : ℚ) - (y0 : ℚ)) / ((x1 : ℚ) - (x0 : ℚ)) := by
  have hdoy := day_of_year_bounds d hm1 hm12 hd1 hd2
  have hlen : (0 : ℚ) < 365.0 + (is_leap_year d.year : ℚ) := by
    rcases is_leap_year_cases d.year with h | h <;> rw [h] <;> norm_num
  have hdy1 : (d.year : ℚ) < decimal_year d := by
    unfold decimal_year
    have : (0:ℚ) < (day_of_year d : ℚ) / (365.0 + (is_leap_year d.year : ℚ)) := by
      apply div_pos _ hlen
      exact_mod_cast lt_of_lt_of_le zero_lt_one (by exact_mod_cast hdoy.1)
    linarith
  have hdy2 : decimal_year d ≤ (d.year : ℚ) + 1 := by
    unfold decimal_year
    have h365 : ((365 + is_leap_year d.year : ℤ) : ℚ) = 365.0 + (is_leap_year d.year : ℚ) := by
      push_cast; norm_num
    have : (day_of_year d : ℚ) / (365.0 + (is_leap_year d.year : ℚ)) ≤ 1 := by
      rw [div_le_one hlen, ← h365]
      exact_mod_cast hdoy.2
    linarith
  have hnotout : ¬(d.year < DELTA_T_TABLE_START_YEAR ∨ DELTA_T_TABLE_END_YEAR < d.year) := by
    unfold DELTA_T_TABLE_START_YEAR DELTA_T_TABLE_END_YEAR; omega
  by_cases hpre : d.year < 1700
  · -- pre-telescope era
    set i : ℤ := (d.year - (-1000)) / 100 with hi
    have hi0 : 0 ≤ i := by omega
    have hi26 : i ≤ 26 := by omega
    have htd : Int.tdiv (d.year - PRE_TELESCOPE_ERA_START_YEAR) PRE_TELESCOPE_ERA_YEAR_INTERVAL = i := by
      unfold PRE_TELESCOPE_ERA_START_YEAR PRE_TELESCOPE_ERA_YEAR_INTERVAL
      rw [Int.tdiv_eq_ediv (by omega) (by decide)]
    have hlength : deltat_pre_telescope_era.length = 28 := by decide
    have hr0 : deltat_row deltat_pre_telescope_era oob i = deltat_pre_telescope_era.getD i.toNat (0,0,0) := by
      apply deltat_row_in_range _ _ _ hi0; omega
    have hr1 : deltat_row deltat_pre_telescope_era oob (i+1) = deltat_pre_telescope_era.getD (i.toNat+1) (0,0,0) := by
      have h1 : (i+1).toNat = i.toNat + 1 := by omega
      rw [← h1]
      apply deltat_row_in_range _ _ _ (by omega); omega
    have hx0 : (deltat_pre_telescope_era.getD i.toNat (0,0,0)).1 = -1000 + 100 * (i.toNat : ℤ) :=
      pre_table_years i.toNat (by omega)
    have hx1 : (deltat_pre_telescope_era.getD (i.toNat+1) (0,0,0)).1 = -1000 + 100 * ((i.toNat : ℤ)+1) := by
      have := pre_table_years (i.toNat+1) (by omega)
      rw [this]; push_cast; ring
    refine ⟨i.toNat, (deltat_pre_telescope_era.getD i.toNat (0,0,0)).1,
      (deltat_pre_telescope_era.getD i.toNat (0,0,0)).2.1,
      (deltat_pre_telescope_era.getD i.toNat (0,0,0)).2.2,
      (deltat_pre_telescope_era.getD (i.toNat+1) (0,0,0)).1,
      (deltat_pre_telescope_era.getD (i.toNat+1) (0,0,0)).2.1,
      (deltat_pre_telescope_era.getD (i.toNat+1) (0,0,0)).2.2, ?_, ?_, ?_, ?_, ?_, ?_⟩
    · rw [if_pos hpre]
    · rw [if_pos hpre]
    · rw [if_pos hpre, hx0, hx1]; ring
    · rw [hx0]
      have hle : -1000 + 100 * (i.toNat : ℤ) ≤ d.year := by omega
      have : ((-1000 + 100 * (i.toNat : ℤ) : ℤ) : ℚ) ≤ (d.year : ℚ) := by exact_mod_cast hle
      push_cast at this ⊢
      linarith
    · rw [hx1]
      have hge : d.year + 1 ≤ -1000 + 100 * ((i.toNat : ℤ) + 1) := by omega
      have : ((d.year + 1 : ℤ) : ℚ) ≤ ((-1000 + 100 * ((i.toNat : ℤ) + 1) : ℤ) : ℚ) := by exact_mod_cast hge
      push_cast at this ⊢
      linarith
    · unfold dynamical_time_difference
      rw [if_neg hnotout, if_pos (by unfold TELESCOPE_ERA_START_YEAR; omega)]
      simp only [htd, hr0, hr1]
      unfold linear_interpolate decimal_year
      ring
  · -- telescope era
    set i : ℤ := (d.year - 1700) / 10 with hi
    have hi0 : 0 ≤ i := by omega
    have hi31 : i ≤ 31 := by omega
    have htd : Int.tdiv (d.year - TELESCOPE_ERA_START_YEAR) TELESCOPE_ERA_YEAR_INTERVAL = i := by
      unfold TELESCOPE_ERA_START_YEAR TELESCOPE_ERA_YEAR_INTERVAL
      rw [Int.tdiv_eq_ediv (by omega) (by decide)]
    have hlength : deltat_telescope_era.length = 33 := by decide
    have hr0 : deltat_row deltat_telescope_era oob i = deltat_telescope_era.getD i.toNat (0,0,0) := by
      apply deltat_row_in_range _ _ _ hi0; omega
    have hr1 : deltat_row deltat_telescope_era oob (i+1) = deltat_telescope_era.getD (i.toNat+1) (0,0,0) := by
      have h1 : (i+1).toNat = i.toNat + 1 := by omega
      rw [← h1]
      apply deltat_row_in_range _ _ _ (by omega); omega
    have hx0 : (deltat_telescope_era.getD i.toNat (0,0,0)).1 = 1700 + 10 * (i.toNat : ℤ) :=
      tel_table_years i.toNat (by omega)
    have hx1 : (deltat_telescope_era.getD (i.toNat+1) (0,0,0)).1 = 1700 + 10 * ((i.toNat : ℤ)+1) := by
      have := tel_table_years (i.toNat+1) (by omega)
      rw [this]; push_cast; ring
    refine ⟨i.toNat, (deltat_telescope_era.getD i.toNat (0,0,0)).1,
      (deltat_telescope_era.getD i.toNat (0,0,0)).2.1,
      (deltat_telescope_era.getD i.toNat (0,0,0)).2.2,
      (deltat_telescope_era.getD (i.toNat+1) (0,0,0)).1,
      (deltat_telescope_era.getD (i.toNat+1) (0,0,0)).2.1,
      (deltat_telescope_era.getD (i.toNat+1) (0,0,0)).2.2, ?_, ?_, ?_, ?_, ?_, ?_⟩
    · rw [if_neg hpre]
    · rw [if_neg hpre]
    · rw [if_neg hpre, hx0, hx1]; ring
    · rw [hx0]
      have hle : 1700 + 10 * (i.toNat : ℤ) ≤ d.year := by omega
      have : ((1700 + 10 * (i.toNat : ℤ) : ℤ) : ℚ) ≤ (d.year : ℚ) := by exact_mod_cast hle
      push_cast at this ⊢
      linarith
    · rw [hx1]
      have hge : d.year + 1 ≤ 1700 + 10 * ((i.toNat : ℤ) + 1) := by omega
      have : ((d.year + 1 : ℤ) : ℚ) ≤ ((1700 + 10 * ((i.toNat : ℤ) + 1) : ℤ) : ℚ) := by exact_mod_cast hge
      push_cast at this ⊢
      linarith
    · unfold dynamical_time_difference
      rw [if_neg hnotout, if_neg (by unfold TELESCOPE_ERA_START_YEAR; omega)]
      simp only [htd, hr0, hr1]
      unfold linear_interpolate decimal_year
      ring


/-- C7: ΔT characterization.  Outside [-1000, 2020] the quadratic
extrapolation is used; for in-range years up to 2019 the value is the linear
interpolation, in the date's decimal year, between two consecutive
breakpoints of the era table selected by year < 1700, whose years bracket
the decimal year.  (Year 2020 is excluded: there the code reads past the
end of the telescope-era table.) -/
theorem C7_deltaT (oob : ℤ × ℤ) (d : date ℚ)
    (hm1 : 1 ≤ d.month) (hm12 : d.month ≤ 12)
    (hd1 : 1 ≤ d.day) (hd2 : d.day < (month_length d.year d.month : ℚ) + 1) :
    ((d.year < -1000 ∨ 2020 < d.year) →
      dynamical_time_difference oob d = -20 + 32 * (((d.year : ℚ) - 1820) / 100)^2) ∧
    (-1000 ≤ d.year → d.year ≤ 2019 →
      ∃ i : ℕ, ∃ x0 y0 u0 x1 y1 u1 : ℤ,
        (if d.year < 1700 then deltat_pre_telescope_era else deltat_telescope_era).getD i (0,0,0) = (x0, y0, u0) ∧
        (if d.year < 1700 then deltat_pre_telescope_era else deltat_telescope_era).getD (i+1) (0,0,0) = (x1, y1, u1) ∧
        x1 = x0 + (if d.year < 1700 then 100 else 10) ∧
        (x0 : ℚ) ≤ decimal_year d ∧ decimal_year d ≤ (x1 : ℚ) ∧
        dynamical_time_difference oob d =
          (y0 : ℚ) + (decimal_year d - (x0 : ℚ)) * ((y1 : ℚ) - (y0 : ℚ)) / ((x1 : ℚ) - (x0 : ℚ))) := by
  constructor
  · intro hout
    unfold dynamical_time_difference
    rw [if_pos (by unfold DELTA_T_TABLE_START_YEAR DELTA_T_TABLE_END_YEAR; omega)]
    ring
  · intro hy1 hy2
    exact deltaT_interpolation oob d hm1 hm12 hd1 hd2 hy1 hy2

/-- C7 counterexample to the original claim: at the breakpoint year 2000 the
code does not return the tabulated 65 s exactly; for 1.0 January 2000 it
returns 65 + 1/3660 s (the decimal year lies strictly past the breakpoint). -/
theorem C7_counterexample :
    dynamical_time_difference (0, 0) (⟨1.0, JANUARY, 2000⟩ : date ℚ) = 65 + 1/3660 ∧
    (65 + 1/3660 : ℚ) ≠ 65 := by
  constructor
  · unfold dynamical_time_difference
    rw [if_neg (by unfold DELTA_T_TABLE_START_YEAR DELTA_T_TABLE_END_YEAR; decide),
      if_neg (by unfold TELESCOPE_ERA_START_YEAR; decide)]
    have htd : Int.tdiv ((2000:ℤ) - TELESCOPE_ERA_START_YEAR) TELESCOPE_ERA_YEAR_INTERVAL = 30 := by decide
    have hdoy : day_of_year (⟨1.0, JANUARY, 2000⟩ : date ℚ) = 1 := by
      unfold day_of_year
      have hleap : is_leap_year (2000:ℤ) = 1 := by decide
      norm_num [hleap, JANUARY, itrunc, Int.floor_eq_iff]
    have hleap : is_leap_year (2000:ℤ) = 1 := by decide
    simp only [htd, hdoy, hleap]
    have hr0 : deltat_row deltat_telescope_era (0, 0) 30 = (2000, 65, 0) := by decide
    have hr1 : deltat_row deltat_telescope_era (0, 0) (30 + 1) = (2010, 66, 0) := by decide
    rw [hr0, hr1]
    unfold linear_interpolate
    norm_num
  · norm_num

/-- Witness for C7_deltaT at 1.0 January 1999. -/
theorem C7_deltaT_witness :
    (1 ≤ (⟨1.0, JANUARY, 1999⟩ : date ℚ).month) ∧ ((⟨1.0, JANUARY, 1999⟩ : date ℚ).month ≤ 12) ∧
    (1 ≤ (⟨1.0, JANUARY, 1999⟩ : date ℚ).day) ∧
    ((⟨1.0, JANUARY, 1999⟩ : date ℚ).day < (month_length 1999 1 : ℚ) + 1) ∧
    (((1999:ℤ) < -1000 ∨ 2020 < (1999:ℤ)) →
      dynamical_time_difference (0,0) ⟨1.0, JANUARY, 1999⟩ = -20 + 32 * (((1999 : ℚ) - 1820) / 100)^2) ∧
    (-1000 ≤ (1999:ℤ) → (1999:ℤ) ≤ 2019 →
      ∃ i : ℕ, ∃ x0 y0 u0 x1 y1 u1 : ℤ,
        (if (1999:ℤ) < 1700 then deltat_pre_telescope_era else deltat_telescope_era).getD i (0,0,0) = (x0, y0, u0) ∧
        (if (1999:ℤ) < 1700 then deltat_pre_telescope_era else deltat_telescope_era).getD (i+1) (0,0,0) = (x1, y1, u1) ∧
        x1 = x0 + (if (1999:ℤ) < 1700 then 100 else 10) ∧
        (x0 : ℚ) ≤ decimal_year ⟨1.0, JANUARY, 1999⟩ ∧ decimal_year ⟨1.0, JANUARY, 1999⟩ ≤ (x1 : ℚ) ∧
        dynamical_time_difference (0,0) ⟨1.0, JANUARY, 1999⟩ =
          (y0 : ℚ) + (decimal_year ⟨1.0, JANUARY, 1999⟩ - (x0 : ℚ)) * ((y1 : ℚ) - (y0 : ℚ)) / ((x1 : ℚ) - (x0 : ℚ))) := by
  have h1 : (1 : ℤ) ≤ 1 := le_refl 1
  have hml : ((⟨1.0, JANUARY, 1999⟩ : date ℚ).day : ℚ) < (month_length 1999 1 : ℚ) + 1 := by
    have : month_length 1999 1 = 31 := by decide
    rw [this]; norm_num
  have := C7_deltaT (0,0) ⟨1.0, JANUARY, 1999⟩ (by decide) (by decide) (by norm_num) hml
  exact ⟨by decide, by decide, by norm_num, hml, this.1, this.2⟩

end CalendarProofs

section AstroProofs

open Real

/-- `norm2pi` in closed form: `2π` times the fractional part of `x / 2π`. -/
lemma norm2pi_eq (x : ℝ) : norm2pi x = 2 * π * Int.fract (x / (2 * π)) := by
  have h2pi : (0:ℝ) < 2 * π := by positivity
  have hrw : norm2pi x
      = if c_fmod x (2 * π) < 0 then c_fmod x (2 * π) + 2 * π else c_fmod x (2 * π) := rfl
  have hxy : 2 * π * (x / (2 * π)) = x := by field_simp
  have hcm : c_fmod x (2 * π) = 2 * π * (x / (2 * π) - (itrunc (x / (2 * π)) : ℝ)) := by
    rw [c_fmod, mul_sub, hxy]
  by_cases h0 : 0 ≤ x / (2 * π)
  · rw [show itrunc (x / (2 * π)) = ⌊x / (2 * π)⌋ from if_pos h0] at hcm
    have hnn : 0 ≤ c_fmod x (2 * π) := by
      rw [hcm]
      exact mul_nonneg h2pi.le (by rw [Int.self_sub_floor]; exact Int.fract_nonneg _)
    rw [hrw, if_neg (not_lt.2 hnn), hcm, Int.self_sub_floor]
  · push_neg at h0
    have hit : itrunc (x / (2 * π)) = ⌈x / (2 * π)⌉ := by
      rw [itrunc, if_neg (not_le.2 h0), Int.floor_neg, neg_neg]
    rw [hit] at hcm
    have hd : ⌈x / (2 * π)⌉ = ⌊x / (2 * π)⌋ ∨ ⌈x / (2 * π)⌉ = ⌊x / (2 * π)⌋ + 1 := by
      have h1 := Int.floor_le_ceil (x / (2 * π))
      have h2 := Int.ceil_le_floor_add_one (x / (2 * π))
      omega
    rcases hd with hc | hc
    · have hy2 : x / (2 * π) = (⌊x / (2 * π)⌋ : ℝ) := by
        have ha := Int.floor_le (x / (2 * π))
        have hb := Int.le_ceil (x / (2 * π))
        rw [hc] at hb
        exact le_antisymm hb ha
      have hc0 : c_fmod x (2 * π) = 0 := by rw [hcm, hc, ← hy2]; ring
      have hfr0 : Int.fract (x / (2 * π)) = 0 := by
        rw [← Int.self_sub_floor, ← hy2]; ring
      rw [hrw, hc0, hfr0]
      norm_num
    · have hlt1 : x / (2 * π) - (⌊x / (2 * π)⌋ : ℝ) < 1 := by
        have h1 := Int.fract_lt_one (x / (2 * π))
        rw [← Int.self_sub_floor] at h1
        exact h1
      have hneg : c_fmod x (2 * π) < 0 := by
        rw [hcm, hc]
        push_cast
        exact mul_neg_of_pos_of_neg h2pi (by linarith)
      rw [hrw, if_pos hneg, hcm, hc, ← Int.self_sub_floor]
      push_cast
      ring


/-- `norm2pi` lands in `[0, 2π)`: lower bound. -/
lemma norm2pi_nonneg (x : ℝ) : 0 ≤ norm2pi x := by
  rw [norm2pi_eq]
  exact mul_nonneg (by positivity) (Int.fract_nonneg _)

/-- `norm2pi` lands in `[0, 2π)`: upper bound. -/
lemma norm2pi_lt_two_pi (x : ℝ) : norm2pi x < 2 * π := by
  rw [norm2pi_eq]
  have h2pi : (0:ℝ) < 2 * π := by positivity
  calc 2 * π * Int.fract (x / (2 * π)) < 2 * π * 1 :=
        mul_lt_mul_of_pos_left (Int.fract_lt_one _) h2pi
    _ = 2 * π := mul_one _

/-- `norm2pi` is invariant under shifts by integer multiples of `2π`. -/
lemma norm2pi_add_int_mul (x : ℝ) (k : ℤ) : norm2pi (x + 2 * π * k) = norm2pi x := by
  rw [norm2pi_eq, norm2pi_eq]
  congr 1
  have h : (x + 2 * π * k) / (2 * π) = x / (2 * π) + k := by
    field_simp
    ring
  rw [h, Int.fract_add_int]

/-- `norm2pi x` differs from `x` by an integer multiple of `2π`. -/
lemma norm2pi_shift (x : ℝ) : ∃ k : ℤ, norm2pi x = x + 2 * π * k := by
  refine ⟨-⌊x / (2 * π)⌋, ?_⟩
  have hxy : 2 * π * (x / (2 * π)) = x := by field_simp
  rw [norm2pi_eq, ← Int.self_sub_floor, mul_sub, hxy]
  push_cast
  ring

/-- Normalising an already-normalised longitude after adding a correction
is the same as normalising the raw sum. -/
lemma norm2pi_norm2pi_add (x y : ℝ) : norm2pi (norm2pi x + y) = norm2pi (x + y) := by
  obtain ⟨k, hk⟩ := norm2pi_shift x
  rw [hk, show x + 2 * π * k + y = (x + y) + 2 * π * k by ring, norm2pi_add_int_mul]

/-- `norm2pi` fixes values already in `[0, 2π)`. -/
lemma norm2pi_eq_self (x : ℝ) (h0 : 0 ≤ x) (h1 : x < 2 * π) : norm2pi x = x := by
  have h2pi : (0:ℝ) < 2 * π := by positivity
  rw [norm2pi_eq, Int.fract_eq_self.2 ⟨div_nonneg h0 h2pi.le, by rwa [div_lt_one h2pi]⟩]
  field_simp

/-- `nutation_in_longitude` reads only the Delaunay-argument provider of
the environment. -/
lemma nutation_in_longitude_congr (e₁ e₂ : Env) (h : e₁.delaunay = e₂.delaunay)
    (d : date ℝ) : nutation_in_longitude e₁ d = nutation_in_longitude e₂ d := by
  unfold nutation_in_longitude
  rw [h]

/-- `sun_true_position` reads only the planetary theory and the ΔT table
over-read of the environment. -/
lemma sun_true_position_congr (e₁ e₂ : Env) (h1 : e₁.hpp = e₂.hpp) (h2 : e₁.oob = e₂.oob)
    (d : date ℝ) : sun_true_position e₁ d = sun_true_position e₂ d := by
  unfold sun_true_position
  rw [h1, h2]

/-- `atan2 y 0 = π/2` for positive `y`. -/
lemma atan2_pos_zero (y : ℝ) (hy : 0 < y) : atan2 y 0 = π / 2 := by
  unfold atan2
  rw [if_neg (lt_irrefl 0), if_neg (lt_irrefl 0), if_pos hy]

/-- The longitude component of `aberration`, unfolded. -/
lemma aberration_longitude (env : Env) (d : date ℝ) (ep : ecliptic_point) :
    (aberration env d ep).longitude
      = -(env.kUninit * (π / 648000.0))
          * (Real.cos ((sun_true_position env d).longitude - ep.longitude)
            - (compute_orbital_elements_of_date env.oob d Planet.EARTH).eccentricity_of_orbit
              * (env.kUninit * (π / 648000.0))
              * Real.cos ((compute_orbital_elements_of_date env.oob d Planet.EARTH).perhelion_longitude
                - ep.longitude))
          / Real.cos ep.latitude := rfl

/-- **C10**: for every date `d`, the Moon's apparent position keeps the
latitude of the true position unchanged, and its longitude is the true
longitude plus the nutation in longitude, normalised to `[0, 2π)` (equal
to normalising the raw theory longitude plus nutation); no light-time
iteration and no aberration correction enters `moon_apparent_position`. -/
theorem C10_moon_apparent_position (env : Env) (d : date ℝ) :
    (moon_apparent_position env d).latitude = (moon_true_position env d).latitude ∧
    (moon_apparent_position env d).longitude
      = norm2pi ((moon_true_position env d).longitude + nutation_in_longitude env d) ∧
    (moon_apparent_position env d).longitude
      = norm2pi ((env.moonPos ((julian_ephemeris_date env.oob d - J2000) / DAYS_IN_JULIAN_CENTURY)).longitude
          * π / 648000 + nutation_in_longitude env d) ∧
    0 ≤ (moon_apparent_position env d).longitude ∧
    (moon_apparent_position env d).longitude < 2 * π := by
  refine ⟨rfl, rfl, ?_, norm2pi_nonneg _, norm2pi_lt_two_pi _⟩
  exact norm2pi_norm2pi_add _ _

/-- **C5**: with Earth as target body, `planet_phase_angle` and
`planet_disk_illuminated_fraction` return the sentinel -1, while
`planet_apparent_magnitude` returns the value of its never-assigned result
variable (`env.mUninit`), not the sentinel. -/
theorem C5_earth_sentinels (env : Env) (fuel : ℕ) (d : date ℝ) :
    planet_phase_angle env d Planet.EARTH = -1 ∧
    planet_disk_illuminated_fraction env d Planet.EARTH = -1 ∧
    planet_apparent_magnitude env fuel d Planet.EARTH = some env.mUninit := by
  refine ⟨?_, ?_, ?_⟩
  · simp [planet_phase_angle]
  · simp [planet_disk_illuminated_fraction]
  · simp [planet_apparent_magnitude]

/-- Counterexample to the magnitude part of the original C5 claim: when
the uninitialised result variable happens to hold 0, the magnitude
returned for the Earth is 0, not the sentinel -1. -/
theorem C5_magnitude_not_sentinel :
    planet_apparent_magnitude trivial_env 0 probe_date Planet.EARTH ≠ some (-1) := by
  simp [planet_apparent_magnitude, trivial_env]

/-- **C8**: counterexample to the ecliptic/equatorial round trip.  For the
point (longitude π/2, latitude 0) and obliquity π/4 the round trip returns
latitude `arcsin(√2/2 - 1/2) ≈ 0.207`, not 0: the latitude formula of
`equatorial_to_ecliptic` uses `sin(right_ascension)` where the correct
formula has `sin(declination)`. -/
theorem C8_round_trip_latitude_fails :
    (equatorial_to_ecliptic (ecliptic_to_equatorial ⟨π / 2, 0⟩ (π / 4)) (π / 4)).latitude
      = Real.arcsin (Real.sqrt 2 / 2 - 1 / 2) ∧
    (equatorial_to_ecliptic (ecliptic_to_equatorial ⟨π / 2, 0⟩ (π / 4)) (π / 4)).latitude
      ≠ (⟨π / 2, 0⟩ : ecliptic_point).latitude := by
  have hpi := Real.pi_pos
  have hs2 : Real.sqrt 2 * Real.sqrt 2 = 2 := Real.mul_self_sqrt (by norm_num)
  have hra : (ecliptic_to_equatorial ⟨π / 2, 0⟩ (π / 4)).right_ascension = π / 2 := by
    show atan2 (Real.sin (π / 2) * Real.cos (π / 4) - Real.tan 0 * Real.sin (π / 4))
        (Real.cos (π / 2)) = π / 2
    rw [Real.cos_pi_div_two, Real.sin_pi_div_two, Real.tan_zero, Real.cos_pi_div_four]
    rw [show (1 : ℝ) * (Real.sqrt 2 / 2) - 0 * Real.sin (π / 4) = Real.sqrt 2 / 2 by ring]
    exact atan2_pos_zero _ (by positivity)
  have hdec : (ecliptic_to_equatorial ⟨π / 2, 0⟩ (π / 4)).declination = π / 4 := by
    show Real.arcsin (Real.sin 0 * Real.cos (π / 4)
        + Real.cos 0 * Real.sin (π / 4) * Real.sin (π / 2)) = π / 4
    rw [Real.sin_zero, Real.cos_zero, Real.sin_pi_div_two]
    rw [show (0 : ℝ) * Real.cos (π / 4) + 1 * Real.sin (π / 4) * 1 = Real.sin (π / 4) by ring]
    exact Real.arcsin_sin (by linarith) (by linarith)
  have heq : ecliptic_to_equatorial ⟨π / 2, 0⟩ (π / 4) = (⟨π / 2, π / 4⟩ : equatorial_point) := by
    calc ecliptic_to_equatorial ⟨π / 2, 0⟩ (π / 4)
        = ⟨(ecliptic_to_equatorial ⟨π / 2, 0⟩ (π / 4)).right_ascension,
           (ecliptic_to_equatorial ⟨π / 2, 0⟩ (π / 4)).declination⟩ := rfl
      _ = ⟨π / 2, π / 4⟩ := by rw [hra, hdec]
  have hlat : (equatorial_to_ecliptic (⟨π / 2, π / 4⟩ : equatorial_point) (π / 4)).latitude
      = Real.arcsin (Real.sqrt 2 / 2 - 1 / 2) := by
    show Real.arcsin (Real.sin (π / 2) * Real.cos (π / 4)
        - Real.cos (π / 4) * Real.sin (π / 4) * Real.sin (π / 2))
      = Real.arcsin (Real.sqrt 2 / 2 - 1 / 2)
    rw [Real.sin_pi_div_two, Real.cos_pi_div_four, Real.sin_pi_div_four]
    congr 1
    linear_combination (-1/4 : ℝ) * hs2
  have h12 : (1 : ℝ) < Real.sqrt 2 := by
    nlinarith [Real.sqrt_nonneg 2, hs2]
  have hpos : 0 < Real.arcsin (Real.sqrt 2 / 2 - 1 / 2) :=
    Real.arcsin_pos.2 (by linarith)
  refine ⟨by rw [heq]; exact hlat, ?_⟩
  rw [heq, hlat]
  exact ne_of_gt hpos

/-- **C2**: the correction returned by `aberration` is not a function of
the date and the ecliptic point alone: two environments that agree on
every defined input (planetary theory, Delaunay arguments, lunar theory,
table over-read) and differ only in the stack garbage held by the
never-initialised variable `k` produce different corrections. -/
theorem C2_aberration_depends_on_uninitialised :
    ∃ (e₁ e₂ : Env) (d : date ℝ) (ep : ecliptic_point),
      e₁.hpp = e₂.hpp ∧ e₁.delaunay = e₂.delaunay ∧ e₁.moonPos = e₂.moonPos ∧
      e₁.oob = e₂.oob ∧ aberration e₁ d ep ≠ aberration e₂ d ep := by
  have key : ∀ E C : ℝ,
      -(1 * (π / 648000.0)) * (1 - E * (1 * (π / 648000.0)) * C)
        = -(2 * (π / 648000.0)) * (1 - E * (2 * (π / 648000.0)) * C) →
      -(2 * (π / 648000.0)) * (1 - E * (2 * (π / 648000.0)) * C)
        = -(3 * (π / 648000.0)) * (1 - E * (3 * (π / 648000.0)) * C) →
      False := by
    intro E C h12 h23
    have hY : E * C * (π / 648000.0) ^ 2 = 0 := by linear_combination (h12 - h23) / 2
    have ha : (π / 648000.0 : ℝ) = 0 := by linear_combination h12 + 3 * hY
    have hpi0 : π = 0 := by
      field_simp at ha
      exact ha
    exact Real.pi_ne_zero hpi0
  have hab : ∀ k : ℝ, (aberration (envK k) probe_date ab_ep).longitude
      = -(k * (π / 648000.0))
          * (1 - (compute_orbital_elements_of_date ((0, 0) : ℤ × ℤ) probe_date Planet.EARTH).eccentricity_of_orbit
              * (k * (π / 648000.0))
              * Real.cos ((compute_orbital_elements_of_date ((0, 0) : ℤ × ℤ) probe_date Planet.EARTH).perhelion_longitude
                - (sun_true_position (envK 1) probe_date).longitude)) := by
    intro k
    rw [aberration_longitude]
    rw [show (envK k).kUninit = k from rfl, show (envK k).oob = ((0, 0) : ℤ × ℤ) from rfl]
    rw [sun_true_position_congr (envK k) (envK 1) rfl rfl probe_date]
    rw [show ab_ep.longitude = (sun_true_position (envK 1) probe_date).longitude from rfl]
    rw [show ab_ep.latitude = (0 : ℝ) from rfl]
    rw [sub_self, Real.cos_zero, div_one]
  by_cases h12 : aberration (envK 1) probe_date ab_ep = aberration (envK 2) probe_date ab_ep
  · refine ⟨envK 2, envK 3, probe_date, ab_ep, rfl, rfl, rfl, rfl, fun h23 => ?_⟩
    exact key
      (compute_orbital_elements_of_date ((0, 0) : ℤ × ℤ) probe_date Planet.EARTH).eccentricity_of_orbit
      (Real.cos ((compute_orbital_elements_of_date ((0, 0) : ℤ × ℤ) probe_date Planet.EARTH).perhelion_longitude
        - (sun_true_position (envK 1) probe_date).longitude))
      (by rw [← hab 1, ← hab 2]; exact congrArg ecliptic_point.longitude h12)
      (by rw [← hab 2, ← hab 3]; exact congrArg ecliptic_point.longitude h23)
  · exact ⟨envK 1, envK 2, probe_date, ab_ep, rfl, rfl, rfl, rfl, h12⟩

/-- The fuel-0 equation of the light-time loop. -/
lemma lt_loop_zero (env : Env) (p : Planet) (t : ℝ) (esp : spherical_point)
    (lt0 lt1 : ℝ) (xyz : ℝ × ℝ × ℝ) (psp : spherical_point) :
    lt_loop env p t esp 0 lt0 lt1 xyz psp
      = if |lt0 - lt1| > light_time_precision then none else some (lt0, lt1, xyz, psp) := rfl

/-- One step of the light-time loop, phrased on the `lt_tau` sequence. -/
lemma lt_loop_step (env : Env) (p : Planet) (t : ℝ) (esp : spherical_point)
    (fuel n : ℕ) :
    lt_loop env p t esp (fuel + 1) (lt_tau env p t esp (n + 1)) (lt_tau env p t esp n)
        (lt_xyz env p t esp n) (lt_psp env p t esp n)
      = if |lt_tau env p t esp (n + 1) - lt_tau env p t esp n| > light_time_precision then
          lt_loop env p t esp fuel (lt_tau env p t esp (n + 2)) (lt_tau env p t esp (n + 1))
            (lt_xyz env p t esp (n + 1)) (lt_psp env p t esp (n + 1))
        else some (lt_tau env p t esp (n + 1), lt_tau env p t esp n,
            lt_xyz env p t esp n, lt_psp env p t esp n) := rfl

/-- The first executed body of the light-time loop moves the entry state
(τ = 0, previous τ = 2·pr) to the state after one body, since the entry
guard `|0 - 2 pr| > pr` always holds. -/
lemma lt_loop_entry (env : Env) (p : Planet) (t : ℝ) (esp : spherical_point) (fuel : ℕ) :
    lt_loop env p t esp (fuel + 1) 0.0 (0.0 + 2 * light_time_precision) (0, 0, 0) ⟨0, 0, 0⟩
      = lt_loop env p t esp fuel (lt_tau env p t esp 1) (lt_tau env p t esp 0)
          (lt_xyz env p t esp 0) (lt_psp env p t esp 0) := by
  have hg : |(0.0 : ℝ) - (0.0 + 2 * light_time_precision)| > light_time_precision := by
    rw [show (0.0 : ℝ) - (0.0 + 2 * light_time_precision) = -(2 * light_time_precision) by ring,
      abs_neg, abs_of_nonneg (by norm_num [light_time_precision])]
    norm_num [light_time_precision]
  calc lt_loop env p t esp (fuel + 1) 0.0 (0.0 + 2 * light_time_precision) (0, 0, 0) ⟨0, 0, 0⟩
      = if |(0.0 : ℝ) - (0.0 + 2 * light_time_precision)| > light_time_precision then
          lt_loop env p t esp fuel (lt_tau env p t esp 1) (lt_tau env p t esp 0)
            (lt_xyz env p t esp 0) (lt_psp env p t esp 0)
        else some (0.0, 0.0 + 2 * light_time_precision, (0, 0, 0), ⟨0, 0, 0⟩) := rfl
    _ = lt_loop env p t esp fuel (lt_tau env p t esp 1) (lt_tau env p t esp 0)
          (lt_xyz env p t esp 0) (lt_psp env p t esp 0) := if_pos hg

/-- Soundness of the light-time loop against the `lt_tau` sequence: if the
loop started at the state after `n+1` bodies returns, the first exit index
is characterised by the successive-τ difference dropping to at most `pr`. -/
lemma lt_loop_sound (env : Env) (p : Planet) (t : ℝ) (esp : spherical_point) :
    ∀ (fuel n : ℕ) (r : ℝ × ℝ × (ℝ × ℝ × ℝ) × spherical_point),
      lt_loop env p t esp fuel (lt_tau env p t esp (n + 1)) (lt_tau env p t esp n)
          (lt_xyz env p t esp n) (lt_psp env p t esp n) = some r →
      ∃ j, j ≤ fuel ∧
        (∀ i, i < j →
          light_time_precision < |lt_tau env p t esp (n + 1 + i) - lt_tau env p t esp (n + i)|) ∧
        |lt_tau env p t esp (n + 1 + j) - lt_tau env p t esp (n + j)| ≤ light_time_precision := by
  intro fuel
  induction fuel with
  | zero =>
    intro n r h
    rw [lt_loop_zero] at h
    by_cases hg : |lt_tau env p t esp (n + 1) - lt_tau env p t esp n| > light_time_precision
    · rw [if_pos hg] at h
      exact absurd h (by simp)
    · refine ⟨0, le_refl 0, fun i hi => absurd hi (Nat.not_lt_zero i), ?_⟩
      simpa using not_lt.1 hg
  | succ fuel ih =>
    intro n r h
    rw [lt_loop_step] at h
    by_cases hg : |lt_tau env p t esp (n + 1) - lt_tau env p t esp n| > light_time_precision
    · rw [if_pos hg] at h
      obtain ⟨j, hj, hmin, hexit⟩ := ih (n + 1) r h
      refine ⟨j + 1, by omega, ?_, ?_⟩
      · intro i hi
        rcases Nat.eq_zero_or_pos i with rfl | hip
        · simpa using hg
        · obtain ⟨i', rfl⟩ := Nat.exists_eq_succ_of_ne_zero (Nat.pos_iff_ne_zero.1 hip)
          have hm := hmin i' (by omega)
          rwa [show n + 1 + 1 + i' = n + 1 + (i' + 1) from by omega,
            show n + 1 + i' = n + (i' + 1) from by omega] at hm
      · rwa [show n + 1 + 1 + j = n + 1 + (j + 1) from by omega,
          show n + 1 + j = n + (j + 1) from by omega] at hexit
    · rw [if_neg hg] at h
      refine ⟨0, Nat.zero_le _, fun i hi => absurd hi (Nat.not_lt_zero i), ?_⟩
      simpa using not_lt.1 hg

/-- `planet_apparent_position` returns a value exactly when its light-time
loop does (for a non-Earth body). -/
lemma planet_apparent_position_isSome (env : Env) (fuel : ℕ) (d : date ℝ) (p : Planet)
    (hp : p ≠ Planet.EARTH) :
    (planet_apparent_position env fuel d p).isSome
      = (lt_loop env p (lt_t env d) (lt_esp env d) fuel 0.0 (0.0 + 2 * light_time_precision)
          (0, 0, 0) ⟨0, 0, 0⟩).isSome := by
  simp only [planet_apparent_position]
  rw [if_pos hp]
  unfold lt_esp lt_t
  cases hX : lt_loop env p ((julian_ephemeris_date env.oob d - J2000) / DAYS_IN_JULIAN_CENTURY)
      (env.hpp (((julian_ephemeris_date env.oob d - J2000) / DAYS_IN_JULIAN_CENTURY) / 10.0)
        Planet.EARTH)
      fuel 0.0 (0.0 + 2 * light_time_precision) (0, 0, 0) ⟨0, 0, 0⟩ with
  | none => simp
  | some r =>
    obtain ⟨a, b, ⟨x, y, z⟩, q⟩ := r
    simp

/-- **C3**: the light-time fixed-point loop of `planet_apparent_position`
for a non-Earth body starts from τ = 0, on each step recomputes the body's
heliocentric position at time `t - τ`, the geocentric distance Δ, and sets
τ_new = 0.0057755183·Δ; whenever the function returns, the loop exited at
the first index whose successive-τ difference is at most the precision
constant — which is `10e-7` = 1e-6, not 1e-7. -/
theorem C3_light_time_iteration (env : Env) (p : Planet) (hp : p ≠ Planet.EARTH)
    (d : date ℝ) (fuel : ℕ) (ep : ecliptic_point)
    (h : planet_apparent_position env fuel d p = some ep) :
    light_time_precision = 1e-6 ∧
    lt_tau env p (lt_t env d) (lt_esp env d) 0 = 0 ∧
    (∀ n, lt_tau env p (lt_t env d) (lt_esp env d) (n + 1)
        = 0.0057755183 * dist3 (geovec
            (env.hpp ((lt_t env d - lt_tau env p (lt_t env d) (lt_esp env d) n
                / DAYS_IN_JULIAN_CENTURY) / 10.0) p) (lt_esp env d))) ∧
    ∃ N, 1 ≤ N ∧ N ≤ fuel ∧
      |lt_tau env p (lt_t env d) (lt_esp env d) N
        - lt_tau env p (lt_t env d) (lt_esp env d) (N - 1)| ≤ light_time_precision ∧
      ∀ m, 1 ≤ m → m < N →
        light_time_precision
          < |lt_tau env p (lt_t env d) (lt_esp env d) m
              - lt_tau env p (lt_t env d) (lt_esp env d) (m - 1)| := by
  refine ⟨by norm_num [light_time_precision], by norm_num [lt_tau], fun n => rfl, ?_⟩
  have hiss : (lt_loop env p (lt_t env d) (lt_esp env d) fuel 0.0
      (0.0 + 2 * light_time_precision) (0, 0, 0) ⟨0, 0, 0⟩).isSome = true := by
    rw [← planet_apparent_position_isSome env fuel d p hp, h]
    rfl
  obtain ⟨fuel', rfl⟩ : ∃ f, fuel = f + 1 := by
    cases fuel with
    | zero =>
      exfalso
      have hg : |(0.0 : ℝ) - (0.0 + 2 * light_time_precision)| > light_time_precision := by
        rw [show (0.0 : ℝ) - (0.0 + 2 * light_time_precision) = -(2 * light_time_precision) by ring,
          abs_neg, abs_of_nonneg (by norm_num [light_time_precision])]
        norm_num [light_time_precision]
      rw [lt_loop_zero, if_pos hg] at hiss
      simp at hiss
    | succ f => exact ⟨f, rfl⟩
  rw [lt_loop_entry] at hiss
  obtain ⟨r, hr⟩ := Option.isSome_iff_exists.1 hiss
  obtain ⟨j, hj, hmin, hexit⟩ := lt_loop_sound env p (lt_t env d) (lt_esp env d) fuel' 0 r hr
  refine ⟨j + 1, by omega, by omega, ?_, ?_⟩
  · rwa [show 0 + 1 + j = j + 1 from by omega, show 0 + j = j + 1 - 1 from by omega] at hexit
  · intro m h1m hmN
    have hm := hmin (m - 1) (by omega)
    rwa [show 0 + 1 + (m - 1) = m from by omega, show 0 + (m - 1) = m - 1 from by omega] at hm

/-- The fuel-0 equation of the equinox/solstice loop. -/
lemma eqsol_loop_zero (env : Env) (k : ℤ) (d : date ℝ) (jde : ℝ) :
    equinox_solstice_loop env k 0 d jde = none := rfl

/-- One step of the equinox/solstice `do … while` loop, phrased on the
`eqsol_seq` state sequence. -/
lemma eqsol_loop_step (env : Env) (k y : ℤ) (fuel n : ℕ) :
    equinox_solstice_loop env k (fuel + 1) (eqsol_seq env k y n).1 (eqsol_seq env k y n).2
      = if eqsol_corr env k y n > equinox_solstice_precision then
          equinox_solstice_loop env k fuel (eqsol_seq env k y (n + 1)).1
            (eqsol_seq env k y (n + 1)).2
        else some (eqsol_seq env k y (n + 1)).1 := rfl

/-- Soundness of the equinox/solstice loop against the `eqsol_seq`
sequence: a returned date comes from the first iteration whose (signed)
correction drops to at most the precision constant. -/
lemma eqsol_loop_sound (env : Env) (k y : ℤ) :
    ∀ (fuel n : ℕ) (dres : date ℝ),
      equinox_solstice_loop env k fuel (eqsol_seq env k y n).1 (eqsol_seq env k y n).2
        = some dres →
      ∃ j, j < fuel ∧
        (∀ i, i < j → equinox_solstice_precision < eqsol_corr env k y (n + i)) ∧
        eqsol_corr env k y (n + j) ≤ equinox_solstice_precision ∧
        dres = (eqsol_seq env k y (n + j + 1)).1 := by
  intro fuel
  induction fuel with
  | zero =>
    intro n dres h
    rw [eqsol_loop_zero] at h
    exact absurd h (by simp)
  | succ fuel ih =>
    intro n dres h
    rw [eqsol_loop_step] at h
    by_cases hc : eqsol_corr env k y n > equinox_solstice_precision
    · rw [if_pos hc] at h
      obtain ⟨j, hj, hmin, hexit, hres⟩ := ih (n + 1) dres h
      refine ⟨j + 1, by omega, ?_, ?_, ?_⟩
      · intro i hi
        rcases Nat.eq_zero_or_pos i with rfl | hip
        · simpa using hc
        · obtain ⟨i', rfl⟩ := Nat.exists_eq_succ_of_ne_zero (Nat.pos_iff_ne_zero.1 hip)
          have hm := hmin i' (by omega)
          rwa [show n + 1 + i' = n + (i' + 1) from by omega] at hm
      · rwa [show n + 1 + j = n + (j + 1) from by omega] at hexit
      · rwa [show n + 1 + j + 1 = n + (j + 1) + 1 from by omega] at hres
    · rw [if_neg hc] at h
      refine ⟨0, by omega, fun i hi => absurd hi (Nat.not_lt_zero i), ?_, ?_⟩
      · simpa using not_lt.1 hc
      · rw [show n + 0 + 1 = n + 1 from by omega]
        exact (Option.some.inj h).symm

/-- **C4**: `equinox_solstice` seeds the date at day 21 of month 3(k+1)
and on each iteration computes the apparent solar longitude, the
correction `c = 58 sin(k π/2 - λ)`, adds `c` to the Julian ephemeris date
and converts back with the current ΔT; whenever it returns, the loop
exited at the first iteration whose SIGNED correction is at most the
precision constant — which is `10e-7` = 1e-6, not 1e-7, and the test is
`c ≤ p`, not `|c| ≤ p`. -/
theorem C4_equinox_solstice_iteration (env : Env) (k y : ℤ) (fuel : ℕ) (dres : date ℝ)
    (h : equinox_solstice env fuel y k = some dres) :
    equinox_solstice_precision = 1e-6 ∧
    (eqsol_seq env k y 0).1 = (⟨21.0, (k + 1) * 3, y⟩ : date ℝ) ∧
    (∀ n, eqsol_corr env k y n
        = 58.0 * Real.sin ((k : ℝ) * π / 2
            - (sun_apparent_position env (eqsol_seq env k y n).1).longitude)) ∧
    (∀ n, (eqsol_seq env k y (n + 1)).2 = (eqsol_seq env k y n).2 + eqsol_corr env k y n) ∧
    (∀ n, (eqsol_seq env k y (n + 1)).1
        = calendar_date ((eqsol_seq env k y n).2 + eqsol_corr env k y n
            - dynamical_time_difference env.oob (eqsol_seq env k y n).1)) ∧
    ∃ N, N < fuel ∧
      (∀ m, m < N → equinox_solstice_precision < eqsol_corr env k y m) ∧
      eqsol_corr env k y N ≤ equinox_solstice_precision ∧
      dres = (eqsol_seq env k y (N + 1)).1 := by
  refine ⟨by norm_num [equinox_solstice_precision], rfl, fun n => rfl, fun n => rfl,
    fun n => rfl, ?_⟩
  have h0 : equinox_solstice_loop env k fuel (eqsol_seq env k y 0).1 (eqsol_seq env k y 0).2
      = some dres := h
  obtain ⟨j, hj, hmin, hexit, hres⟩ := eqsol_loop_sound env k y fuel 0 dres h0
  refine ⟨j, hj, ?_, ?_, ?_⟩
  · intro m hm
    have hx := hmin m hm
    rwa [Nat.zero_add] at hx
  · rwa [Nat.zero_add] at hexit
  · rwa [Nat.zero_add] at hres

/-- In the tuned environment `eq_env`, the Sun's apparent longitude at the
vernal-equinox seed date is exactly π/2. -/
lemma sun_apparent_eq_env : (sun_apparent_position eq_env eqsol_seed).longitude = π / 2 := by
  have hnut : nutation_in_longitude eq_env eqsol_seed
      = nutation_in_longitude trivial_env eqsol_seed :=
    nutation_in_longitude_congr _ _ rfl _
  have hrfl : (sun_apparent_position eq_env eqsol_seed).longitude
      = norm2pi ((π / 2 - π + 0.09033 * π / 180.0 / 3600.0 + ABERRATION_CONSTANT * π / 648000
          - nutation_in_longitude trivial_env eqsol_seed)
          - 0.09033 * π / 180.0 / 3600.0 + π + nutation_in_longitude eq_env eqsol_seed
          - ABERRATION_CONSTANT * π / 648000 / 1) := rfl
  rw [hrfl, hnut]
  rw [show (π / 2 - π + 0.09033 * π / 180.0 / 3600.0 + ABERRATION_CONSTANT * π / 648000
      - nutation_in_longitude trivial_env eqsol_seed)
      - 0.09033 * π / 180.0 / 3600.0 + π + nutation_in_longitude trivial_env eqsol_seed
      - ABERRATION_CONSTANT * π / 648000 / 1 = π / 2 from by ring]
  exact norm2pi_eq_self _ (by positivity) (by linarith [Real.pi_pos])

/-- In `eq_env` the first equinox-solstice correction is exactly -58. -/
lemma eqsol_corr_eq_env : eqsol_corr eq_env 0 2000 0 = -58 := by
  have hseed : (eqsol_seq eq_env 0 2000 0).1 = eqsol_seed := rfl
  rw [show eqsol_corr eq_env 0 2000 0
      = 58.0 * Real.sin (((0 : ℤ) : ℝ) * π / 2
          - (sun_apparent_position eq_env (eqsol_seq eq_env 0 2000 0).1).longitude) from rfl]
  rw [hseed, sun_apparent_eq_env]
  rw [show (((0 : ℤ) : ℝ) * π / 2 - π / 2) = -(π / 2) from by push_cast; ring]
  rw [Real.sin_neg, Real.sin_pi_div_two]
  norm_num

/-- In `eq_env` the vernal-equinox solver for year 2000 returns after a
single iteration (whose correction is -58). -/
lemma equinox_solstice_eq_env :
    equinox_solstice eq_env 1 2000 0 = some ((eqsol_seq eq_env 0 2000 1).1) := by
  have e0 : equinox_solstice eq_env 1 2000 0
      = equinox_solstice_loop eq_env 0 1 (eqsol_seq eq_env 0 2000 0).1
          (eqsol_seq eq_env 0 2000 0).2 := rfl
  have e1 : equinox_solstice_loop eq_env 0 1 (eqsol_seq eq_env 0 2000 0).1
        (eqsol_seq eq_env 0 2000 0).2
      = if eqsol_corr eq_env 0 2000 0 > equinox_solstice_precision then
          equinox_solstice_loop eq_env 0 0 (eqsol_seq eq_env 0 2000 1).1
            (eqsol_seq eq_env 0 2000 1).2
        else some ((eqsol_seq eq_env 0 2000 1).1) := eqsol_loop_step eq_env 0 2000 0 0
  rw [e0, e1, if_neg (by rw [eqsol_corr_eq_env]; norm_num [equinox_solstice_precision])]

/-- Counterexample to the |c| ≤ 1e-7 reading of the exit condition: the
loop can exit on a correction of -58 (the exit test is on the signed
value), so the absolute correction at exit is not at most 1e-7. -/
theorem C4_exit_correction_not_small :
    equinox_solstice eq_env 1 2000 0 = some ((eqsol_seq eq_env 0 2000 1).1) ∧
    eqsol_corr eq_env 0 2000 0 = -58 ∧
    ¬(|eqsol_corr eq_env 0 2000 0| ≤ 1e-7) := by
  refine ⟨equinox_solstice_eq_env, eqsol_corr_eq_env, ?_⟩
  rw [eqsol_corr_eq_env]
  rw [abs_of_nonpos (by norm_num)]
  norm_num

/-- Witness for C4 at the tuned environment, year 2000, vernal equinox. -/
theorem C4_equinox_solstice_iteration_witness :
    ∃ dres, equinox_solstice eq_env 1 2000 0 = some dres ∧
      ∃ N, N < 1 ∧ eqsol_corr eq_env 0 2000 N ≤ equinox_solstice_precision ∧
        dres = (eqsol_seq eq_env 0 2000 (N + 1)).1 := by
  obtain ⟨N, hN, _, hexit, hres⟩ :=
    (C4_equinox_solstice_iteration eq_env 0 2000 1 _ equinox_solstice_eq_env).2.2.2.2.2
  exact ⟨_, equinox_solstice_eq_env, N, hN, hexit, hres⟩

/-- In `lt_env` the geocentric rectangular position of any non-Earth body
is (1e-4, 0, 0). -/
lemma geovec_lt_env : geovec (⟨0, 0, 0.0001⟩ : spherical_point) (⟨0, 0, 0⟩ : spherical_point)
    = ((0.0001 : ℝ), 0, 0) := by
  simp [geovec, Real.cos_zero, Real.sin_zero]

/-- `dist3` of the `lt_env` geocentric vector. -/
lemma dist3_lt_env : dist3 ((0.0001 : ℝ), 0, 0) = 0.0001 := by
  rw [dist3]
  rw [show ((0.0001 : ℝ) * 0.0001 + 0 * 0 + 0 * 0) = 0.0001 ^ 2 by norm_num]
  exact Real.sqrt_sq (by norm_num)

/-- In `lt_env` the first light-time estimate for Mercury is
5.7755183e-7 (already within the 1e-6 exit threshold). -/
lemma lt_tau_one_lt_env :
    lt_tau lt_env Planet.MERCURY (lt_t lt_env probe_date) (lt_esp lt_env probe_date) 1
      = 0.0057755183 * 0.0001 := by
  rw [show lt_tau lt_env Planet.MERCURY (lt_t lt_env probe_date) (lt_esp lt_env probe_date) 1
      = 0.0057755183 * dist3 (geovec (⟨0, 0, 0.0001⟩ : spherical_point)
          (⟨0, 0, 0⟩ : spherical_point)) from rfl]
  rw [geovec_lt_env, dist3_lt_env]

/-- In `lt_env` the light-time loop for Mercury exits on its first test. -/
lemma lt_loop_lt_env :
    lt_loop lt_env Planet.MERCURY (lt_t lt_env probe_date) (lt_esp lt_env probe_date) 1
        0.0 (0.0 + 2 * light_time_precision) (0, 0, 0) ⟨0, 0, 0⟩
      = some (lt_tau lt_env Planet.MERCURY (lt_t lt_env probe_date) (lt_esp lt_env probe_date) 1,
          lt_tau lt_env Planet.MERCURY (lt_t lt_env probe_date) (lt_esp lt_env probe_date) 0,
          lt_xyz lt_env Planet.MERCURY (lt_t lt_env probe_date) (lt_esp lt_env probe_date) 0,
          lt_psp lt_env Planet.MERCURY (lt_t lt_env probe_date) (lt_esp lt_env probe_date) 0) := by
  have hguard : ¬(|lt_tau lt_env Planet.MERCURY (lt_t lt_env probe_date) (lt_esp lt_env probe_date) 1
      - lt_tau lt_env Planet.MERCURY (lt_t lt_env probe_date) (lt_esp lt_env probe_date) 0|
        > light_time_precision) := by
    rw [lt_tau_one_lt_env,
      show lt_tau lt_env Planet.MERCURY (lt_t lt_env probe_date) (lt_esp lt_env probe_date) 0
        = (0.0 : ℝ) from rfl]
    rw [show (0.0057755183 * 0.0001 - 0.0 : ℝ) = 0.0057755183 * 0.0001 by ring]
    rw [abs_of_nonneg (by norm_num), not_lt]
    norm_num [light_time_precision]
  have e1 : lt_loop lt_env Planet.MERCURY (lt_t lt_env probe_date) (lt_esp lt_env probe_date) 1
        0.0 (0.0 + 2 * light_time_precision) (0, 0, 0) ⟨0, 0, 0⟩
      = lt_loop lt_env Planet.MERCURY (lt_t lt_env probe_date) (lt_esp lt_env probe_date) 0
          (lt_tau lt_env Planet.MERCURY (lt_t lt_env probe_date) (lt_esp lt_env probe_date) 1)
          (lt_tau lt_env Planet.MERCURY (lt_t lt_env probe_date) (lt_esp lt_env probe_date) 0)
          (lt_xyz lt_env Planet.MERCURY (lt_t lt_env probe_date) (lt_esp lt_env probe_date) 0)
          (lt_psp lt_env Planet.MERCURY (lt_t lt_env probe_date) (lt_esp lt_env probe_date) 0) :=
    lt_loop_entry lt_env Planet.MERCURY (lt_t lt_env probe_date) (lt_esp lt_env probe_date) 0
  rw [e1, lt_loop_zero, if_neg hguard]

/-- Witness for C3: Mercury in `lt_env`, one unit of fuel. -/
theorem C3_light_time_iteration_witness :
    Planet.MERCURY ≠ Planet.EARTH ∧
    ∃ ep, planet_apparent_position lt_env 1 probe_date Planet.MERCURY = some ep ∧
      ∃ N, 1 ≤ N ∧ N ≤ 1 ∧
        |lt_tau lt_env Planet.MERCURY (lt_t lt_env probe_date) (lt_esp lt_env probe_date) N
          - lt_tau lt_env Planet.MERCURY (lt_t lt_env probe_date) (lt_esp lt_env probe_date)
              (N - 1)| ≤ light_time_precision := by
  have hp : Planet.MERCURY ≠ Planet.EARTH := by decide
  have hiss : (planet_apparent_position lt_env 1 probe_date Planet.MERCURY).isSome = true := by
    rw [planet_apparent_position_isSome lt_env 1 probe_date Planet.MERCURY hp, lt_loop_lt_env]
    rfl
  obtain ⟨ep, hep⟩ := Option.isSome_iff_exists.1 hiss
  obtain ⟨N, h1, h2, h3, _⟩ :=
    (C3_light_time_iteration lt_env Planet.MERCURY hp probe_date 1 ep hep).2.2.2
  exact ⟨hp, ep, hep, N, h1, h2, h3⟩

/-- Counterexample to the 1e-7 reading of the light-time exit threshold:
in `lt_env` the loop for Mercury returns although the successive-τ
difference at exit is 5.7755183e-7 > 1e-7 (it is only below `pr` = 1e-6). -/
theorem C3_exit_difference_not_small :
    (planet_apparent_position lt_env 1 probe_date Planet.MERCURY).isSome = true ∧
    |lt_tau lt_env Planet.MERCURY (lt_t lt_env probe_date) (lt_esp lt_env probe_date) 1
        - lt_tau lt_env Planet.MERCURY (lt_t lt_env probe_date) (lt_esp lt_env probe_date) 0|
      > 1e-7 := by
  constructor
  · rw [planet_apparent_position_isSome lt_env 1 probe_date Planet.MERCURY (by decide),
      lt_loop_lt_env]
    rfl
  · rw [lt_tau_one_lt_env,
      show lt_tau lt_env Planet.MERCURY (lt_t lt_env probe_date) (lt_esp lt_env probe_date) 0
        = (0.0 : ℝ) from rfl]
    rw [show (0.0057755183 * 0.0001 - 0.0 : ℝ) = 0.0057755183 * 0.0001 by ring]
    rw [abs_of_nonneg (by norm_num)]
    norm_num

end AstroProofs

end Chronos
